import Mathlib

/-! The file `intel_device.c` of minigbm: generation lookup and GPU classification.

A shallow embedding of `src/intel_device.c`:

* `intel_gpu_info_from_device_id` - the twelve linear scans over the id tables;
* `gem_param`, `isIntelDg2`, `isVirtioGpuAllowP2p`, `isVirtioGpuPciDevice`,
  `isVirtioGpuWithBlob` - the probes, as state-passing functions over a trace of
  the requests issued against the file descriptor;
* `get_gpu_type` - the decision tree.

C `int` values are `Int`; `uint16_t` identifiers are `Nat` (the cast
`(uint16_t)ret` is an explicit `% 65536`); the output record passed by pointer
is passed in and returned.
-/

namespace IntelDevice

/-! ## Data model (`intel_device.h`) -/

/-- The record `struct intel_gpu_info` of `intel_device.h`. -/
structure intel_gpu_info where
  graphics_version : Int
  sub_version : Int
  is_xelpd : Bool
deriving DecidableEq, Repr

/-! ## The id tables of `intel_gpu_info_from_device_id` (lines 55-122) -/

def gen4_ids : List Nat :=
  [0x29A2, 0x2992, 0x2982, 0x2972, 0x2A02, 0x2A12, 0x2A42,
   0x2E02, 0x2E12, 0x2E22, 0x2E32, 0x2E42, 0x2E92]

def gen5_ids : List Nat := [0x0042, 0x0046]

def gen6_ids : List Nat := [0x0102, 0x0112, 0x0122, 0x0106, 0x0116, 0x0126, 0x010A]

def gen7_ids : List Nat :=
  [0x0152, 0x0162, 0x0156, 0x0166, 0x015a, 0x016a, 0x0402, 0x0412, 0x0422,
   0x0406, 0x0416, 0x0426, 0x040A, 0x041A, 0x042A, 0x040B, 0x041B, 0x042B,
   0x040E, 0x041E, 0x042E, 0x0C02, 0x0C12, 0x0C22, 0x0C06, 0x0C16, 0x0C26,
   0x0C0A, 0x0C1A, 0x0C2A, 0x0C0B, 0x0C1B, 0x0C2B, 0x0C0E, 0x0C1E, 0x0C2E,
   0x0A02, 0x0A12, 0x0A22, 0x0A06, 0x0A16, 0x0A26, 0x0A0A, 0x0A1A, 0x0A2A,
   0x0A0B, 0x0A1B, 0x0A2B, 0x0A0E, 0x0A1E, 0x0A2E, 0x0D02, 0x0D12, 0x0D22,
   0x0D06, 0x0D16, 0x0D26, 0x0D0A, 0x0D1A, 0x0D2A, 0x0D0B, 0x0D1B, 0x0D2B,
   0x0D0E, 0x0D1E, 0x0D2E, 0x0F31, 0x0F32, 0x0F33, 0x0157, 0x0155]

def gen8_ids : List Nat :=
  [0x22B0, 0x22B1, 0x22B2, 0x22B3, 0x1602, 0x1606,
   0x160A, 0x160B, 0x160D, 0x160E, 0x1612, 0x1616,
   0x161A, 0x161B, 0x161D, 0x161E, 0x1622, 0x1626,
   0x162A, 0x162B, 0x162D, 0x162E]

def gen9_ids : List Nat :=
  [0x1902, 0x1906, 0x190A, 0x190B, 0x190E, 0x1912, 0x1913, 0x1915, 0x1916, 0x1917,
   0x191A, 0x191B, 0x191D, 0x191E, 0x1921, 0x1923, 0x1926, 0x1927, 0x192A, 0x192B,
   0x192D, 0x1932, 0x193A, 0x193B, 0x193D, 0x0A84, 0x1A84, 0x1A85, 0x5A84, 0x5A85,
   0x3184, 0x3185, 0x5902, 0x5906, 0x590A, 0x5908, 0x590B, 0x590E, 0x5913, 0x5915,
   0x5917, 0x5912, 0x5916, 0x591A, 0x591B, 0x591D, 0x591E, 0x5921, 0x5923, 0x5926,
   0x5927, 0x593B, 0x591C, 0x87C0, 0x87CA, 0x3E90, 0x3E93, 0x3E99, 0x3E9C, 0x3E91,
   0x3E92, 0x3E96, 0x3E98, 0x3E9A, 0x3E9B, 0x3E94, 0x3EA9, 0x3EA5, 0x3EA6, 0x3EA7,
   0x3EA8, 0x3EA1, 0x3EA4, 0x3EA0, 0x3EA3, 0x3EA2, 0x9B21, 0x9BA0, 0x9BA2, 0x9BA4,
   0x9BA5, 0x9BA8, 0x9BAA, 0x9BAB, 0x9BAC, 0x9B41, 0x9BC0, 0x9BC2, 0x9BC4, 0x9BC5,
   0x9BC6, 0x9BC8, 0x9BCA, 0x9BCB, 0x9BCC, 0x9BE6, 0x9BF6]

def gen11_ids : List Nat :=
  [0x8A50, 0x8A51, 0x8A52, 0x8A53, 0x8A54, 0x8A56, 0x8A57,
   0x8A58, 0x8A59, 0x8A5A, 0x8A5B, 0x8A5C, 0x8A5D, 0x8A71,
   0x4500, 0x4541, 0x4551, 0x4555, 0x4557, 0x4571, 0x4E51,
   0x4E55, 0x4E57, 0x4E61, 0x4E71]

def gen12_ids : List Nat :=
  [0x4c8a, 0x4c8b, 0x4c8c, 0x4c90, 0x4c9a, 0x4680, 0x4681, 0x4682, 0x4683, 0x4688,
   0x4689, 0x4690, 0x4691, 0x4692, 0x4693, 0x4698, 0x4699, 0x4626, 0x4628, 0x462a,
   0x46a0, 0x46a1, 0x46a2, 0x46a3, 0x46a6, 0x46a8, 0x46aa, 0x46b0, 0x46b1, 0x46b2,
   0x46b3, 0x46c0, 0x46c1, 0x46c2, 0x46c3, 0x9A40, 0x9A49, 0x9A59, 0x9A60, 0x9A68,
   0x9A70, 0x9A78, 0x9AC0, 0x9AC9, 0x9AD9, 0x9AF8, 0x4905, 0x4906, 0x4907, 0x4908]

def adlp_ids : List Nat :=
  [0x46A0, 0x46A1, 0x46A2, 0x46A3, 0x46A6, 0x46A8, 0x46AA,
   0x462A, 0x4626, 0x4628, 0x46B0, 0x46B1, 0x46B2, 0x46B3,
   0x46C0, 0x46C1, 0x46C2, 0x46C3, 0x46D0, 0x46D1, 0x46D2]

def dg2_ids : List Nat :=
  [0x4F80, 0x4F81, 0x4F82, 0x4F83, 0x4F84, 0x4F85, 0x4F86, 0x4F87,
   0x56A0, 0x56A1, 0x56A2, 0x56A3, 0x56A4, 0x56A5, 0x56A6, 0x56A7,
   0x56A8, 0x56A9, 0x56AA, 0x56AB, 0x56AC, 0x56AD, 0x56AE, 0x56AF,
   0x5690, 0x5691, 0x5692, 0x5693, 0x5694, 0x5695, 0x5696, 0x5697,
   0x5698, 0x5699, 0x569A, 0x569B, 0x569C, 0x569D, 0x569E, 0x569F,
   0x56B0, 0x56B1, 0x56B2, 0x56B3, 0x56B4, 0x56B5, 0x56B6, 0x56B7,
   0x56B8, 0x56B9, 0x56BA, 0x56BB, 0x56BC, 0x56BD, 0x56BE, 0x56BF,
   0x56C0, 0x56C1, 0x56C2, 0x56C3, 0x56C4, 0x56C5, 0x56C6, 0x56C7,
   0x56C8, 0x56C9, 0x56CA, 0x56CB, 0x56CC, 0x56CD, 0x56CE, 0x56CF]

def rplp_ids : List Nat := [0xA720, 0xA721, 0xA7A0, 0xA7A1, 0xA7A8, 0xA7A9]

def mtl_ids : List Nat := [0x7D40, 0x7D60, 0x7D45, 0x7D55, 0x7DD5]

/-! ## `intel_gpu_info_from_device_id` (lines 53-228) -/

/-- The loop `for (i = 0; i < ARRAY_SIZE(ids); i++) if (ids[i] == device_id) ...`:
`true` when some element of the table equals `device_id` (the loop body then
runs and returns), `false` when the loop falls through. -/
def scan_ids : List Nat → Nat → Bool
  | [], _ => false
  | x :: xs, device_id => if x = device_id then true else scan_ids xs device_id

/-- The function `intel_gpu_info_from_device_id(device_id, i915)`. The record
behind the pointer `i915` comes in as `i915`; the result is the returned `int`
together with the record as the function leaves it. The `Gen 7` branch assigns
`graphics_version` only. -/
def intel_gpu_info_from_device_id (device_id : Nat) (i915 : intel_gpu_info) :
    Int × intel_gpu_info :=
  if scan_ids gen4_ids device_id then (0, ⟨4, 0, false⟩)
  else if scan_ids gen5_ids device_id then (0, ⟨5, 0, false⟩)
  else if scan_ids gen6_ids device_id then (0, ⟨6, 0, false⟩)
  else if scan_ids gen7_ids device_id then (0, ⟨7, i915.sub_version, i915.is_xelpd⟩)
  else if scan_ids gen8_ids device_id then (0, ⟨8, 0, false⟩)
  else if scan_ids gen9_ids device_id then (0, ⟨9, 0, false⟩)
  else if scan_ids gen11_ids device_id then (0, ⟨11, 0, false⟩)
  else if scan_ids gen12_ids device_id then (0, ⟨12, 0, false⟩)
  else if scan_ids dg2_ids device_id then (0, ⟨12, 5, false⟩)
  else if scan_ids adlp_ids device_id then (0, ⟨12, 5, true⟩)
  else if scan_ids rplp_ids device_id then (0, ⟨12, 0, true⟩)
  else if scan_ids mtl_ids device_id then (0, ⟨14, 0, false⟩)
  else (-1, i915)

/-! ## Constants from headers outside `src/` -/

/-- Constants used by the source whose definitions live in headers that are not
under `src/` (`i915_drm.h`, `external/virtgpu_drm.h`, `drv_priv.h`). They are
parameters of the embedding. -/
structure Headers where
  I915_PARAM_CHIPSET_ID : Int
  VIRTGPU_PARAM_RESOURCE_BLOB : Int
  GPU_GRP_TYPE_INTEL_IGPU_IDX : Int
  GPU_GRP_TYPE_INTEL_DGPU_IDX : Int
  GPU_GRP_TYPE_VIRTIO_GPU_BLOB_IDX : Int
  GPU_GRP_TYPE_VIRTIO_GPU_BLOB_P2P_IDX : Int
  GPU_GRP_TYPE_VIRTIO_GPU_NO_BLOB_IDX : Int
  GPU_GRP_TYPE_VIRTIO_GPU_IVSHMEM_IDX : Int

/-- The definition `#define VIRTGPU_PARAM_QUERY_DEV 11` (line 39). -/
def VIRTGPU_PARAM_QUERY_DEV : Int := 11

/-- The definition `#define VIRTGPU_PARAM_ALLOW_P2P 12` (line 40). -/
def VIRTGPU_PARAM_ALLOW_P2P : Int := 12

/-! ## The device behind the file descriptor -/

/-- A request issued against the file descriptor: `drmGetVersion(fd)`,
`drmIoctl(fd, DRM_IOCTL_I915_GETPARAM, &gp)` with `gp.param = param`, or
`drmIoctl(fd, DRM_IOCTL_VIRTGPU_GETPARAM, &get_param)` with
`get_param.param = param`. -/
inductive Request where
  | drmGetVersion
  | i915_getparam (param : Int)
  | virtgpu_getparam (param : Int)
deriving DecidableEq, Repr

/-- The external transport behind `fd`. Every answer may depend on the
requests issued so far (oldest first), so a `Transport` stands for an arbitrary
sequence of responses.

* `drmGetVersion log` is `none` for a `NULL` result, else `version->name`;
* `i915_getparam log param` and `virtgpu_getparam log param` give the status
  returned by `drmIoctl` and, when the driver stores through the `value`
  pointer, the stored value (`none` leaves the caller's variable untouched). -/
structure Transport where
  drmGetVersion : List Request → Option String
  i915_getparam : List Request → Int → Int × Option Int
  virtgpu_getparam : List Request → Int → Int × Option Nat

/-! ## Probes (lines 37-51, 230-282) -/

/-- Two's-complement reduction of an arithmetic result to a 32-bit `int`. -/
def int_wrap (x : Int) : Int := (x + 2147483648) % 4294967296 - 2147483648

/-- The definition
`#define GEN_VERSION_X10(dev) ((dev)->graphics_version * 10 + (dev)->sub_version)`. -/
def GEN_VERSION_X10 (dev : intel_gpu_info) : Int :=
  int_wrap (int_wrap (dev.graphics_version * 10) + dev.sub_version)

/-- The function `gem_param(fd, name)`: `v` starts at `-1`; a non-zero `drmIoctl`
status returns `-1`, otherwise `v` is returned. -/
def gem_param (fd : Transport) (log : List Request) (name : Int) : Int × List Request :=
  let v : Int := -1
  let r := fd.i915_getparam log name
  let log1 := log ++ [Request.i915_getparam name]
  if r.1 ≠ 0 then (-1, log1)
  else (r.2.getD v, log1)

/-- The function `isIntelDg2(fd)`. The local `struct intel_gpu_info info` is not
initialised in the source; its initial contents are the parameter `info`. The
status of the lookup is assigned to `ret` and not read. -/
def isIntelDg2 (K : Headers) (fd : Transport) (log : List Request) (info : intel_gpu_info) :
    Bool × List Request :=
  let g := gem_param fd log K.I915_PARAM_CHIPSET_ID
  if g.1 = -1 then (false, g.2)
  else
    let device_id : Nat := (g.1 % 65536).toNat
    let l := intel_gpu_info_from_device_id device_id info
    (decide (GEN_VERSION_X10 l.2 = 125), g.2)

/-- The function `isVirtioGpuAllowP2p(virtgpu_fd)`. -/
def isVirtioGpuAllowP2p (virtgpu_fd : Transport) (log : List Request) : Bool × List Request :=
  let value : Nat := 0
  let r := virtgpu_fd.virtgpu_getparam log VIRTGPU_PARAM_ALLOW_P2P
  let log1 := log ++ [Request.virtgpu_getparam VIRTGPU_PARAM_ALLOW_P2P]
  if r.1 ≠ 0 ∨ r.2.getD value ≠ 1 then (false, log1)
  else (true, log1)

/-- The function `isVirtioGpuPciDevice(virtgpu_fd)`. -/
def isVirtioGpuPciDevice (virtgpu_fd : Transport) (log : List Request) : Bool × List Request :=
  let value : Nat := 0
  let r := virtgpu_fd.virtgpu_getparam log VIRTGPU_PARAM_QUERY_DEV
  let log1 := log ++ [Request.virtgpu_getparam VIRTGPU_PARAM_QUERY_DEV]
  if r.1 ≠ 0 ∨ r.2.getD value ≠ 1 then (false, log1)
  else (true, log1)

/-- The function `isVirtioGpuWithBlob(virtgpu_fd)`. -/
def isVirtioGpuWithBlob (K : Headers) (virtgpu_fd : Transport) (log : List Request) :
    Bool × List Request :=
  let value : Nat := 0
  let r := virtgpu_fd.virtgpu_getparam log K.VIRTGPU_PARAM_RESOURCE_BLOB
  let log1 := log ++ [Request.virtgpu_getparam K.VIRTGPU_PARAM_RESOURCE_BLOB]
  if r.1 ≠ 0 ∨ r.2.getD value ≠ 1 then (false, log1)
  else (true, log1)

/-! ## `get_gpu_type` (lines 284-314) -/

/-- The function `get_gpu_type(fd)`. `log` is the trace of requests issued before
the call and `info` the initial contents of the local record of `isIntelDg2`;
the result is the returned `int` and the trace after the call.
`strcmp(a, b) == 0` is string equality; `drmFreeVersion` only releases memory. -/
def get_gpu_type (K : Headers) (fd : Transport) (log : List Request) (info : intel_gpu_info) :
    Int × List Request :=
  let type : Int := -1
  let log0 := log ++ [Request.drmGetVersion]
  match fd.drmGetVersion log with
  | none => (type, log0)
  | some name =>
    if name = "i915" then
      let p := isIntelDg2 K fd log0 info
      if p.1 then (K.GPU_GRP_TYPE_INTEL_DGPU_IDX, p.2)
      else (K.GPU_GRP_TYPE_INTEL_IGPU_IDX, p.2)
    else if name = "virtio_gpu" then
      let p1 := isVirtioGpuPciDevice fd log0
      if !p1.1 then (K.GPU_GRP_TYPE_VIRTIO_GPU_IVSHMEM_IDX, p1.2)
      else
        let p2 := isVirtioGpuWithBlob K fd p1.2
        if !p2.1 then (K.GPU_GRP_TYPE_VIRTIO_GPU_NO_BLOB_IDX, p2.2)
        else
          let p3 := isVirtioGpuAllowP2p fd p2.2
          if p3.1 then (K.GPU_GRP_TYPE_VIRTIO_GPU_BLOB_P2P_IDX, p3.2)
          else (K.GPU_GRP_TYPE_VIRTIO_GPU_BLOB_IDX, p3.2)
    else (type, log0)

/-! ## Reference definitions for the claims -/

/-- The twelve id tables in the order in which the source scans them. -/
def id_lists : List (List Nat) :=
  [gen4_ids, gen5_ids, gen6_ids, gen7_ids, gen8_ids, gen9_ids, gen11_ids, gen12_ids,
   dg2_ids, adlp_ids, rplp_ids, mtl_ids]

/-- The ordered bucket list of the specification: every bucket pairs an id set
with one complete descriptor (major version, sub-version, extended-display flag). -/
def generation_buckets : List (List Nat × intel_gpu_info) :=
  [(gen4_ids, ⟨4, 0, false⟩), (gen5_ids, ⟨5, 0, false⟩), (gen6_ids, ⟨6, 0, false⟩),
   (gen7_ids, ⟨7, 0, false⟩), (gen8_ids, ⟨8, 0, false⟩), (gen9_ids, ⟨9, 0, false⟩),
   (gen11_ids, ⟨11, 0, false⟩), (gen12_ids, ⟨12, 0, false⟩), (dg2_ids, ⟨12, 5, false⟩),
   (adlp_ids, ⟨12, 5, true⟩), (rplp_ids, ⟨12, 0, true⟩), (mtl_ids, ⟨14, 0, false⟩)]

/-- The lookup as the specification words it: the first bucket whose set contains
the identifier determines the result; `none` is NotFound. -/
def lookupGeneration (deviceId : Nat) : Option intel_gpu_info :=
  match generation_buckets.find? (fun b => decide (deviceId ∈ b.1)) with
  | some b => some b.2
  | none => none

/-- What the specification's lookup means for the C interface: status `0` and the
descriptor in the output record, or status `-1`. -/
def lookupGeneration_result (deviceId : Nat) (i915 : intel_gpu_info) : Int × intel_gpu_info :=
  match lookupGeneration deviceId with
  | some g => (0, g)
  | none => (-1, i915)

/-- A sample assignment of the header constants, used to instantiate theorems. -/
def sample_headers : Headers := ⟨4, 3, 0, 1, 2, 3, 4, 5⟩

/-- A sample device: its driver is `name`, every `i915` parameter query succeeds
with `chipset`, every `virtgpu` parameter query succeeds with `answer param`. -/
def sample_fd (name : String) (chipset : Int) (answer : Int → Nat) : Transport :=
  ⟨fun _ => some name, fun _ _ => (0, some chipset), fun _ p => (0, some (answer p))⟩

/-- A sample device whose driver name query answers `name` (`none` for a `NULL`
result) and whose parameter queries all fail with status `-1`. -/
def sample_fd_err (name : Option String) : Transport :=
  ⟨fun _ => name, fun _ _ => (-1, none), fun _ _ => (-1, none)⟩

/-- The branch structure of `intel_gpu_info_from_device_id` with the outcomes of
the twelve scans abstracted to booleans (used in proofs only). -/
def lookup_branches (b4 b5 b6 b7 b8 b9 b11 b12 bdg2 badlp brplp bmtl : Bool)
    (i915 : intel_gpu_info) : Int × intel_gpu_info :=
  if b4 then (0, ⟨4, 0, false⟩)
  else if b5 then (0, ⟨5, 0, false⟩)
  else if b6 then (0, ⟨6, 0, false⟩)
  else if b7 then (0, ⟨7, i915.sub_version, i915.is_xelpd⟩)
  else if b8 then (0, ⟨8, 0, false⟩)
  else if b9 then (0, ⟨9, 0, false⟩)
  else if b11 then (0, ⟨11, 0, false⟩)
  else if b12 then (0, ⟨12, 0, false⟩)
  else if bdg2 then (0, ⟨12, 5, false⟩)
  else if badlp then (0, ⟨12, 5, true⟩)
  else if brplp then (0, ⟨12, 0, true⟩)
  else if bmtl then (0, ⟨14, 0, false⟩)
  else (-1, i915)

/-! ## Lemmas on the scans and the tables -/

theorem scan_ids_iff (ids : List Nat) (d : Nat) : scan_ids ids d = true ↔ d ∈ ids := by
  induction ids with
  | nil => simp [scan_ids]
  | cons x xs ih =>
    by_cases hx : x = d
    · simp [scan_ids, hx]
    · have hx' : ¬ d = x := fun e => hx e.symm
      simp [scan_ids, hx, hx', ih]

theorem scan_ids_false_iff (ids : List Nat) (d : Nat) : scan_ids ids d = false ↔ d ∉ ids := by
  rw [← scan_ids_iff]; simp

/-- Every literal of every table is a 16-bit value. -/
theorem id_lists_lt : ∀ l ∈ id_lists, ∀ x ∈ l, x < 65536 := by decide!

theorem lookup_eq_branches (d : Nat) (r : intel_gpu_info) :
    intel_gpu_info_from_device_id d r =
      lookup_branches (scan_ids gen4_ids d) (scan_ids gen5_ids d) (scan_ids gen6_ids d)
        (scan_ids gen7_ids d) (scan_ids gen8_ids d) (scan_ids gen9_ids d)
        (scan_ids gen11_ids d) (scan_ids gen12_ids d) (scan_ids dg2_ids d)
        (scan_ids adlp_ids d) (scan_ids rplp_ids d) (scan_ids mtl_ids d) r := rfl

theorem branches_fail_iff (b4 b5 b6 b7 b8 b9 b11 b12 bdg2 badlp brplp bmtl : Bool)
    (r : intel_gpu_info) :
    (lookup_branches b4 b5 b6 b7 b8 b9 b11 b12 bdg2 badlp brplp bmtl r).1 = -1 ↔
      b4 = false ∧ b5 = false ∧ b6 = false ∧ b7 = false ∧ b8 = false ∧ b9 = false ∧
      b11 = false ∧ b12 = false ∧ bdg2 = false ∧ badlp = false ∧ brplp = false ∧
      bmtl = false := by
  unfold lookup_branches
  cases b4
  swap
  · simp_all
  simp only [Bool.false_eq_true, if_false] at *
  cases b5
  swap
  · simp_all
  simp only [Bool.false_eq_true, if_false] at *
  cases b6
  swap
  · simp_all
  simp only [Bool.false_eq_true, if_false] at *
  cases b7
  swap
  · simp_all
  simp only [Bool.false_eq_true, if_false] at *
  cases b8
  swap
  · simp_all
  simp only [Bool.false_eq_true, if_false] at *
  cases b9
  swap
  · simp_all
  simp only [Bool.false_eq_true, if_false] at *
  cases b11
  swap
  · simp_all
  simp only [Bool.false_eq_true, if_false] at *
  cases b12
  swap
  · simp_all
  simp only [Bool.false_eq_true, if_false] at *
  cases bdg2
  swap
  · simp_all
  simp only [Bool.false_eq_true, if_false] at *
  cases badlp
  swap
  · simp_all
  simp only [Bool.false_eq_true, if_false] at *
  cases brplp
  swap
  · simp_all
  simp only [Bool.false_eq_true, if_false] at *
  cases bmtl
  swap
  · simp_all
  simp only [Bool.false_eq_true, if_false] at *
  simp_all

theorem branches_status (b4 b5 b6 b7 b8 b9 b11 b12 bdg2 badlp brplp bmtl : Bool)
    (r : intel_gpu_info) :
    (lookup_branches b4 b5 b6 b7 b8 b9 b11 b12 bdg2 badlp brplp bmtl r).1 = 0 ∨
    (lookup_branches b4 b5 b6 b7 b8 b9 b11 b12 bdg2 badlp brplp bmtl r).1 = -1 := by
  unfold lookup_branches
  cases b4
  swap
  · simp_all
  simp only [Bool.false_eq_true, if_false] at *
  cases b5
  swap
  · simp_all
  simp only [Bool.false_eq_true, if_false] at *
  cases b6
  swap
  · simp_all
  simp only [Bool.false_eq_true, if_false] at *
  cases b7
  swap
  · simp_all
  simp only [Bool.false_eq_true, if_false] at *
  cases b8
  swap
  · simp_all
  simp only [Bool.false_eq_true, if_false] at *
  cases b9
  swap
  · simp_all
  simp only [Bool.false_eq_true, if_false] at *
  cases b11
  swap
  · simp_all
  simp only [Bool.false_eq_true, if_false] at *
  cases b12
  swap
  · simp_all
  simp only [Bool.false_eq_true, if_false] at *
  cases bdg2
  swap
  · simp_all
  simp only [Bool.false_eq_true, if_false] at *
  cases badlp
  swap
  · simp_all
  simp only [Bool.false_eq_true, if_false] at *
  cases brplp
  swap
  · simp_all
  simp only [Bool.false_eq_true, if_false] at *
  cases bmtl
  swap
  · simp_all
  simp only [Bool.false_eq_true, if_false] at *
  simp_all

theorem branches_indep (b4 b5 b6 b7 b8 b9 b11 b12 bdg2 badlp brplp bmtl : Bool)
    (r r' : intel_gpu_info)
    (h : (lookup_branches b4 b5 b6 b7 b8 b9 b11 b12 bdg2 badlp brplp bmtl r).1 = 0)
    (h7 : (lookup_branches b4 b5 b6 b7 b8 b9 b11 b12 bdg2 badlp brplp bmtl r).2.graphics_version
      ≠ 7) :
    lookup_branches b4 b5 b6 b7 b8 b9 b11 b12 bdg2 badlp brplp bmtl r' =
      lookup_branches b4 b5 b6 b7 b8 b9 b11 b12 bdg2 badlp brplp bmtl r := by
  unfold lookup_branches at *
  cases b4
  swap
  · simp_all
  simp only [Bool.false_eq_true, if_false] at *
  cases b5
  swap
  · simp_all
  simp only [Bool.false_eq_true, if_false] at *
  cases b6
  swap
  · simp_all
  simp only [Bool.false_eq_true, if_false] at *
  cases b7
  swap
  · simp_all
  simp only [Bool.false_eq_true, if_false] at *
  cases b8
  swap
  · simp_all
  simp only [Bool.false_eq_true, if_false] at *
  cases b9
  swap
  · simp_all
  simp only [Bool.false_eq_true, if_false] at *
  cases b11
  swap
  · simp_all
  simp only [Bool.false_eq_true, if_false] at *
  cases b12
  swap
  · simp_all
  simp only [Bool.false_eq_true, if_false] at *
  cases bdg2
  swap
  · simp_all
  simp only [Bool.false_eq_true, if_false] at *
  cases badlp
  swap
  · simp_all
  simp only [Bool.false_eq_true, if_false] at *
  cases brplp
  swap
  · simp_all
  simp only [Bool.false_eq_true, if_false] at *
  cases bmtl
  swap
  · simp_all
  simp only [Bool.false_eq_true, if_false] at *
  simp_all

theorem branches_gen7 (b4 b5 b6 b7 b8 b9 b11 b12 bdg2 badlp brplp bmtl : Bool)
    (r : intel_gpu_info) (h7 : b7 = false)
    (h : (lookup_branches b4 b5 b6 b7 b8 b9 b11 b12 bdg2 badlp brplp bmtl r).1 = 0) :
    (lookup_branches b4 b5 b6 b7 b8 b9 b11 b12 bdg2 badlp brplp bmtl r).2.graphics_version
      ≠ 7 := by
  subst h7
  unfold lookup_branches at *
  cases b4
  swap
  · simp_all
  simp only [Bool.false_eq_true, if_false] at *
  cases b5
  swap
  · simp_all
  simp only [Bool.false_eq_true, if_false] at *
  cases b6
  swap
  · simp_all
  simp only [Bool.false_eq_true, if_false] at *
  cases b8
  swap
  · simp_all
  simp only [Bool.false_eq_true, if_false] at *
  cases b9
  swap
  · simp_all
  simp only [Bool.false_eq_true, if_false] at *
  cases b11
  swap
  · simp_all
  simp only [Bool.false_eq_true, if_false] at *
  cases b12
  swap
  · simp_all
  simp only [Bool.false_eq_true, if_false] at *
  cases bdg2
  swap
  · simp_all
  simp only [Bool.false_eq_true, if_false] at *
  cases badlp
  swap
  · simp_all
  simp only [Bool.false_eq_true, if_false] at *
  cases brplp
  swap
  · simp_all
  simp only [Bool.false_eq_true, if_false] at *
  cases bmtl
  swap
  · simp_all
  simp only [Bool.false_eq_true, if_false] at *
  simp_all

theorem branches_fail_keep (b4 b5 b6 b7 b8 b9 b11 b12 bdg2 badlp brplp bmtl : Bool)
    (r : intel_gpu_info)
    (h : (lookup_branches b4 b5 b6 b7 b8 b9 b11 b12 bdg2 badlp brplp bmtl r).1 = -1) :
    (lookup_branches b4 b5 b6 b7 b8 b9 b11 b12 bdg2 badlp brplp bmtl r).2 = r := by
  unfold lookup_branches at *
  cases b4
  swap
  · simp_all
  simp only [Bool.false_eq_true, if_false] at *
  cases b5
  swap
  · simp_all
  simp only [Bool.false_eq_true, if_false] at *
  cases b6
  swap
  · simp_all
  simp only [Bool.false_eq_true, if_false] at *
  cases b7
  swap
  · simp_all
  simp only [Bool.false_eq_true, if_false] at *
  cases b8
  swap
  · simp_all
  simp only [Bool.false_eq_true, if_false] at *
  cases b9
  swap
  · simp_all
  simp only [Bool.false_eq_true, if_false] at *
  cases b11
  swap
  · simp_all
  simp only [Bool.false_eq_true, if_false] at *
  cases b12
  swap
  · simp_all
  simp only [Bool.false_eq_true, if_false] at *
  cases bdg2
  swap
  · simp_all
  simp only [Bool.false_eq_true, if_false] at *
  cases badlp
  swap
  · simp_all
  simp only [Bool.false_eq_true, if_false] at *
  cases brplp
  swap
  · simp_all
  simp only [Bool.false_eq_true, if_false] at *
  cases bmtl
  swap
  · simp_all
  simp only [Bool.false_eq_true, if_false] at *

theorem branches_versions (b4 b5 b6 b7 b8 b9 b11 b12 bdg2 badlp brplp bmtl : Bool)
    (r : intel_gpu_info)
    (h : (lookup_branches b4 b5 b6 b7 b8 b9 b11 b12 bdg2 badlp brplp bmtl r).1 = 0) :
    (lookup_branches b4 b5 b6 b7 b8 b9 b11 b12 bdg2 badlp brplp bmtl r).2.graphics_version ∈
      ([4, 5, 6, 7, 8, 9, 11, 12, 14] : List Int) := by
  unfold lookup_branches at *
  cases b4
  swap
  · simp_all
  simp only [Bool.false_eq_true, if_false] at *
  cases b5
  swap
  · simp_all
  simp only [Bool.false_eq_true, if_false] at *
  cases b6
  swap
  · simp_all
  simp only [Bool.false_eq_true, if_false] at *
  cases b7
  swap
  · simp_all
  simp only [Bool.false_eq_true, if_false] at *
  cases b8
  swap
  · simp_all
  simp only [Bool.false_eq_true, if_false] at *
  cases b9
  swap
  · simp_all
  simp only [Bool.false_eq_true, if_false] at *
  cases b11
  swap
  · simp_all
  simp only [Bool.false_eq_true, if_false] at *
  cases b12
  swap
  · simp_all
  simp only [Bool.false_eq_true, if_false] at *
  cases bdg2
  swap
  · simp_all
  simp only [Bool.false_eq_true, if_false] at *
  cases badlp
  swap
  · simp_all
  simp only [Bool.false_eq_true, if_false] at *
  cases brplp
  swap
  · simp_all
  simp only [Bool.false_eq_true, if_false] at *
  cases bmtl
  swap
  · simp_all
  simp only [Bool.false_eq_true, if_false] at *
  simp_all

/-- Status of the lookup: `0` or `-1`. -/
theorem lookup_status (d : Nat) (r : intel_gpu_info) :
    (intel_gpu_info_from_device_id d r).1 = 0 ∨ (intel_gpu_info_from_device_id d r).1 = -1 := by
  rw [lookup_eq_branches]
  exact branches_status _ _ _ _ _ _ _ _ _ _ _ _ r

/-- The lookup fails exactly on the identifiers outside all twelve tables. -/
theorem lookup_fail_iff (d : Nat) (r : intel_gpu_info) :
    (intel_gpu_info_from_device_id d r).1 = -1 ↔ ∀ l ∈ id_lists, d ∉ l := by
  rw [lookup_eq_branches, branches_fail_iff]
  simp only [id_lists, List.forall_mem_cons, List.not_mem_nil, scan_ids_false_iff]
  simp

/-- A successful lookup means a literal of some table, hence a 16-bit value. -/
theorem lookup_ok_lt (d : Nat) (r : intel_gpu_info)
    (h : (intel_gpu_info_from_device_id d r).1 = 0) : d < 65536 := by
  by_contra hlt
  have hf : (intel_gpu_info_from_device_id d r).1 = -1 :=
    (lookup_fail_iff d r).2 (fun l hl hd => hlt (id_lists_lt l hl d hd))
  rw [h] at hf
  exact absurd hf (by decide)

/-- A successful lookup whose major version is not 7 does not read the incoming
record: all three fields have been assigned. -/
theorem lookup_indep (d : Nat) (r r' : intel_gpu_info)
    (h : (intel_gpu_info_from_device_id d r).1 = 0)
    (h7 : (intel_gpu_info_from_device_id d r).2.graphics_version ≠ 7) :
    intel_gpu_info_from_device_id d r' = intel_gpu_info_from_device_id d r := by
  rw [lookup_eq_branches] at h h7
  rw [lookup_eq_branches, lookup_eq_branches]
  exact branches_indep _ _ _ _ _ _ _ _ _ _ _ _ r r' h h7

/-- Outside the `Gen 7` table a successful lookup does not yield major version 7. -/
theorem lookup_not_gen7 (d : Nat) (r : intel_gpu_info) (h7 : d ∉ gen7_ids)
    (h : (intel_gpu_info_from_device_id d r).1 = 0) :
    (intel_gpu_info_from_device_id d r).2.graphics_version ≠ 7 := by
  rw [← scan_ids_false_iff] at h7
  rw [lookup_eq_branches] at h ⊢
  exact branches_gen7 _ _ _ _ _ _ _ _ _ _ _ _ r h7 h

/-- On a literal of the `Gen 7` table only `graphics_version` is assigned. -/
theorem lookup_gen7 (d : Nat) (r : intel_gpu_info) (h : d ∈ gen7_ids) :
    intel_gpu_info_from_device_id d r = (0, ⟨7, r.sub_version, r.is_xelpd⟩) := by
  have h0 : ∀ x ∈ gen7_ids, scan_ids gen4_ids x = false ∧ scan_ids gen5_ids x = false ∧
      scan_ids gen6_ids x = false := by decide!
  obtain ⟨h4, h5, h6⟩ := h0 d h
  rw [← scan_ids_iff] at h
  simp [intel_gpu_info_from_device_id, h4, h5, h6, h]

/-- A table whose literals all evaluate to one complete descriptor `g` (checked on
one incoming record) yields `g` for every incoming record. -/
theorem lookup_of_table (ids : List Nat) (g : intel_gpu_info) (hg : g.graphics_version ≠ 7)
    (htab : ∀ x ∈ ids, intel_gpu_info_from_device_id x ⟨0, 0, false⟩ = (0, g))
    (d : Nat) (hd : d ∈ ids) (r : intel_gpu_info) :
    intel_gpu_info_from_device_id d r = (0, g) := by
  have h0 := htab d hd
  rw [lookup_indep d ⟨0, 0, false⟩ r (by rw [h0]) (by rw [h0]; exact hg), h0]

theorem scan_ids_eq_decide (ids : List Nat) (d : Nat) : decide (d ∈ ids) = scan_ids ids d := by
  cases h : scan_ids ids d
  · exact decide_eq_false ((scan_ids_false_iff ids d).1 h)
  · exact decide_eq_true ((scan_ids_iff ids d).1 h)

/-- Outside the `Gen 7` table the code is the first-match lookup of the
specification over `generation_buckets`. -/
theorem lookup_refines_off_gen7 (d : Nat) (r : intel_gpu_info) (h7 : d ∉ gen7_ids) :
    intel_gpu_info_from_device_id d r = lookupGeneration_result d r := by
  rw [← scan_ids_false_iff] at h7
  unfold lookupGeneration_result lookupGeneration generation_buckets
  simp only [List.find?_cons, scan_ids_eq_decide]
  rw [lookup_eq_branches]
  generalize scan_ids gen4_ids d = b4 at *
  generalize scan_ids gen5_ids d = b5 at *
  generalize scan_ids gen6_ids d = b6 at *
  generalize scan_ids gen7_ids d = b7 at *
  generalize scan_ids gen8_ids d = b8 at *
  generalize scan_ids gen9_ids d = b9 at *
  generalize scan_ids gen11_ids d = b11 at *
  generalize scan_ids gen12_ids d = b12 at *
  generalize scan_ids dg2_ids d = bdg2 at *
  generalize scan_ids adlp_ids d = badlp at *
  generalize scan_ids rplp_ids d = brplp at *
  generalize scan_ids mtl_ids d = bmtl at *
  subst h7
  cases b4
  swap
  · rfl
  cases b5
  swap
  · rfl
  cases b6
  swap
  · rfl
  cases b8
  swap
  · rfl
  cases b9
  swap
  · rfl
  cases b11
  swap
  · rfl
  cases b12
  swap
  · rfl
  cases bdg2
  swap
  · rfl
  cases badlp
  swap
  · rfl
  cases brplp
  swap
  · rfl
  cases bmtl
  swap
  · rfl
  rfl

/-! ## The generation lookup (claims C1 - C5) -/

/-- C1 (counterexample): `0x46A0` is a literal of `adlp_ids`, yet the lookup
succeeds with `(12, 0, false)` and not with the descriptor `(12, 5, true)` of
that list, because the scan of `gen12_ids` comes first and lists it too. -/
theorem C1_adlp_literal_shadowed :
    0x46A0 ∈ adlp_ids ∧
    intel_gpu_info_from_device_id 0x46A0 ⟨0, 0, false⟩ = (0, ⟨12, 0, false⟩) ∧
    intel_gpu_info_from_device_id 0x46A0 ⟨0, 0, false⟩ ≠ (0, ⟨12, 5, true⟩) := by
  decide!

/-- C1 (amended): every literal `d` of one of the twelve id lists is found (status
`0`). A literal of `gen4_ids`, `gen5_ids`, `gen6_ids`, `gen8_ids`, `gen9_ids`,
`gen11_ids`, `gen12_ids`, `dg2_ids`, `rplp_ids` or `mtl_ids` yields exactly the
descriptor of its list; a literal of `adlp_ids` yields `(12, 5, true)` when it is
not also listed in `gen12_ids`, which holds exactly for `0x46D0`, `0x46D1`,
`0x46D2` (the other adlp literals get the `gen12_ids` descriptor `(12, 0, false)`);
a literal of `gen7_ids` yields major version 7. -/
theorem C1_literal_descriptor (d : Nat) (r : intel_gpu_info) (l : List Nat)
    (hl : l ∈ id_lists) (hd : d ∈ l) :
    (intel_gpu_info_from_device_id d r).1 = 0 ∧
    (d ∈ gen4_ids → (intel_gpu_info_from_device_id d r).2 = ⟨4, 0, false⟩) ∧
    (d ∈ gen5_ids → (intel_gpu_info_from_device_id d r).2 = ⟨5, 0, false⟩) ∧
    (d ∈ gen6_ids → (intel_gpu_info_from_device_id d r).2 = ⟨6, 0, false⟩) ∧
    (d ∈ gen7_ids → (intel_gpu_info_from_device_id d r).2.graphics_version = 7) ∧
    (d ∈ gen8_ids → (intel_gpu_info_from_device_id d r).2 = ⟨8, 0, false⟩) ∧
    (d ∈ gen9_ids → (intel_gpu_info_from_device_id d r).2 = ⟨9, 0, false⟩) ∧
    (d ∈ gen11_ids → (intel_gpu_info_from_device_id d r).2 = ⟨11, 0, false⟩) ∧
    (d ∈ gen12_ids → (intel_gpu_info_from_device_id d r).2 = ⟨12, 0, false⟩) ∧
    (d ∈ dg2_ids → (intel_gpu_info_from_device_id d r).2 = ⟨12, 5, false⟩) ∧
    (d ∈ adlp_ids → d ∉ gen12_ids →
      (intel_gpu_info_from_device_id d r).2 = ⟨12, 5, true⟩) ∧
    (d ∈ adlp_ids → (d ∉ gen12_ids ↔ d = 0x46D0 ∨ d = 0x46D1 ∨ d = 0x46D2)) ∧
    (d ∈ rplp_ids → (intel_gpu_info_from_device_id d r).2 = ⟨12, 0, true⟩) ∧
    (d ∈ mtl_ids → (intel_gpu_info_from_device_id d r).2 = ⟨14, 0, false⟩) := by
  refine ⟨?_, ?_, ?_, ?_, ?_, ?_, ?_, ?_, ?_, ?_, ?_, ?_, ?_, ?_⟩
  · rcases lookup_status d r with h | h
    · exact h
    · exact absurd hd ((lookup_fail_iff d r).1 h l hl)
  · intro h
    rw [lookup_of_table gen4_ids ⟨4, 0, false⟩ (by decide) (by decide!) d h r]
  · intro h
    rw [lookup_of_table gen5_ids ⟨5, 0, false⟩ (by decide) (by decide!) d h r]
  · intro h
    rw [lookup_of_table gen6_ids ⟨6, 0, false⟩ (by decide) (by decide!) d h r]
  · intro h
    rw [lookup_gen7 d r h]
  · intro h
    rw [lookup_of_table gen8_ids ⟨8, 0, false⟩ (by decide) (by decide!) d h r]
  · intro h
    rw [lookup_of_table gen9_ids ⟨9, 0, false⟩ (by decide) (by decide!) d h r]
  · intro h
    rw [lookup_of_table gen11_ids ⟨11, 0, false⟩ (by decide) (by decide!) d h r]
  · intro h
    rw [lookup_of_table gen12_ids ⟨12, 0, false⟩ (by decide) (by decide!) d h r]
  · intro h
    rw [lookup_of_table dg2_ids ⟨12, 5, false⟩ (by decide) (by decide!) d h r]
  · intro h hn
    have htab : ∀ x ∈ adlp_ids, x ∉ gen12_ids →
        intel_gpu_info_from_device_id x ⟨0, 0, false⟩ = (0, ⟨12, 5, true⟩) := by decide!
    have h0 := htab d h hn
    rw [lookup_indep d ⟨0, 0, false⟩ r (by rw [h0]) (by rw [h0]; decide), h0]
  · intro h
    have htab : ∀ x ∈ adlp_ids,
        (x ∉ gen12_ids ↔ x = 0x46D0 ∨ x = 0x46D1 ∨ x = 0x46D2) := by decide!
    exact htab d h
  · intro h
    rw [lookup_of_table rplp_ids ⟨12, 0, true⟩ (by decide) (by decide!) d h r]
  · intro h
    rw [lookup_of_table mtl_ids ⟨14, 0, false⟩ (by decide) (by decide!) d h r]

/-- C1 (witness): the amended claim at the adlp literal `0x46D0`, starting from
the output record `(3, 7, false)`. -/
theorem C1_literal_descriptor_witness :
    adlp_ids ∈ id_lists ∧ 0x46D0 ∈ adlp_ids ∧
    (intel_gpu_info_from_device_id 0x46D0 ⟨3, 7, false⟩).1 = 0 ∧
    (intel_gpu_info_from_device_id 0x46D0 ⟨3, 7, false⟩).2 = ⟨12, 5, true⟩ :=
  ⟨by decide!, by decide!,
   (C1_literal_descriptor 0x46D0 ⟨3, 7, false⟩ adlp_ids (by decide!) (by decide!)).1,
   (C1_literal_descriptor 0x46D0 ⟨3, 7, false⟩ adlp_ids (by decide!)
      (by decide!)).2.2.2.2.2.2.2.2.2.2.1 (by decide!) (by decide!)⟩

/-- C2 (failing input): on the `gen7_ids` literal `0x0152`, called with an output
record holding sub-version 5 and flag `true`, the code returns status `0` and
leaves `(7, 5, true)`, whereas the first matching bucket of the reference list
has the descriptor `(7, 0, false)`; on `0x46A0` code and reference agree on
`(12, 0, false)`. -/
theorem C2_gen7_not_first_match :
    intel_gpu_info_from_device_id 0x0152 ⟨0, 5, true⟩ = (0, ⟨7, 5, true⟩) ∧
    lookupGeneration_result 0x0152 ⟨0, 5, true⟩ = (0, ⟨7, 0, false⟩) ∧
    intel_gpu_info_from_device_id 0x0152 ⟨0, 5, true⟩ ≠
      lookupGeneration_result 0x0152 ⟨0, 5, true⟩ ∧
    intel_gpu_info_from_device_id 0x46A0 ⟨0, 5, true⟩ = (0, ⟨12, 0, false⟩) ∧
    lookupGeneration_result 0x46A0 ⟨0, 5, true⟩ = (0, ⟨12, 0, false⟩) := by
  decide!

/-- C3: the lookup returns `-1` exactly when the identifier is in none of the
twelve id lists (and `0` exactly when it is in one of them); identifier `0x0000`
yields `-1`. -/
theorem C3_notfound_iff (d : Nat) (r : intel_gpu_info) :
    ((intel_gpu_info_from_device_id d r).1 = -1 ↔ ∀ l ∈ id_lists, d ∉ l) ∧
    ((intel_gpu_info_from_device_id d r).1 = 0 ↔ ∃ l ∈ id_lists, d ∈ l) ∧
    (intel_gpu_info_from_device_id 0x0000 r).1 = -1 := by
  have h0 : ∀ l ∈ id_lists, 0 ∉ l := by decide!
  refine ⟨lookup_fail_iff d r, ?_, (lookup_fail_iff 0 r).2 h0⟩
  constructor
  · intro h
    by_contra hne
    have hf := (lookup_fail_iff d r).2 (fun l hl hd => hne ⟨l, hl, hd⟩)
    rw [h] at hf
    exact absurd hf (by decide)
  · rintro ⟨l, hl, hd⟩
    rcases lookup_status d r with h | h
    · exact h
    · exact absurd hd ((lookup_fail_iff d r).1 h l hl)

/-- C4 (failing input): for the `gen7_ids` literal `0x0152` two calls that start
from the output records `(0, 0, false)` and `(0, 55, true)` both return `0` and
end with different records, `(7, 0, false)` and `(7, 55, true)`: the `Gen 7`
branch has not set `sub_version` and `is_xelpd`. -/
theorem C4_gen7_keeps_prior_fields :
    intel_gpu_info_from_device_id 0x0152 ⟨0, 0, false⟩ = (0, ⟨7, 0, false⟩) ∧
    intel_gpu_info_from_device_id 0x0152 ⟨0, 55, true⟩ = (0, ⟨7, 55, true⟩) ∧
    (intel_gpu_info_from_device_id 0x0152 ⟨0, 0, false⟩).2 ≠
      (intel_gpu_info_from_device_id 0x0152 ⟨0, 55, true⟩).2 := by
  decide!

/-- C5 (counterexample): `0x46A0` is listed both in `gen12_ids` (written `0x46a0`)
and in `adlp_ids`, so the twelve lists are not pairwise disjoint. -/
theorem C5_lists_overlap :
    0x46A0 ∈ gen12_ids ∧ 0x46A0 ∈ adlp_ids ∧ ¬ List.Pairwise List.Disjoint id_lists := by
  refine ⟨by decide!, by decide!, ?_⟩
  intro h
  have h' : List.Pairwise (fun a b => ∀ x ∈ a, x ∉ b) id_lists :=
    h.imp (fun hab x hx hb => hab hx hb)
  revert h'
  decide!

/-- C5 (amended): any two of the twelve id lists are disjoint, except the pair
`gen12_ids`, `adlp_ids`, which share exactly eighteen identifiers. -/
theorem C5_disjoint_except_gen12_adlp :
    List.Pairwise (fun a b => List.Disjoint a b ∨ (a = gen12_ids ∧ b = adlp_ids)) id_lists ∧
    ∀ x, (x ∈ gen12_ids ∧ x ∈ adlp_ids) ↔
      x ∈ [0x4626, 0x4628, 0x462A, 0x46A0, 0x46A1, 0x46A2, 0x46A3, 0x46A6, 0x46A8, 0x46AA,
       0x46B0, 0x46B1, 0x46B2, 0x46B3, 0x46C0, 0x46C1, 0x46C2, 0x46C3] := by
  constructor
  · have h : List.Pairwise
        (fun a b => (∀ x ∈ a, x ∉ b) ∨ (a = gen12_ids ∧ b = adlp_ids)) id_lists := by decide!
    exact h.imp (fun hab => hab.imp (fun h' => List.disjoint_left.2 (fun x hx => h' x hx)) id)
  · intro x
    constructor
    · rintro ⟨h1, h2⟩
      have h : ∀ y ∈ adlp_ids, y ∈ gen12_ids → y ∈ [0x4626, 0x4628, 0x462A, 0x46A0, 0x46A1, 0x46A2, 0x46A3, 0x46A6, 0x46A8, 0x46AA,
       0x46B0, 0x46B1, 0x46B2, 0x46B3, 0x46C0, 0x46C1, 0x46C2, 0x46C3] := by decide!
      exact h x h2 h1
    · intro hx
      have h : ∀ y ∈ [0x4626, 0x4628, 0x462A, 0x46A0, 0x46A1, 0x46A2, 0x46A3, 0x46A6, 0x46A8, 0x46AA,
       0x46B0, 0x46B1, 0x46B2, 0x46B3, 0x46C0, 0x46C1, 0x46C2, 0x46C3], y ∈ gen12_ids ∧ y ∈ adlp_ids := by decide!
      exact h x hx

/-! ## Lemmas on the probes -/

theorem isVirtioGpuPciDevice_log (fd : Transport) (log : List Request) :
    (isVirtioGpuPciDevice fd log).2 =
      log ++ [Request.virtgpu_getparam VIRTGPU_PARAM_QUERY_DEV] := by
  unfold isVirtioGpuPciDevice
  by_cases h : (fd.virtgpu_getparam log VIRTGPU_PARAM_QUERY_DEV).1 ≠ 0 ∨
      (fd.virtgpu_getparam log VIRTGPU_PARAM_QUERY_DEV).2.getD 0 ≠ 1
  · simp only [h, if_true]
  · simp only [h, if_false]

theorem isVirtioGpuWithBlob_log (K : Headers) (fd : Transport) (log : List Request) :
    (isVirtioGpuWithBlob K fd log).2 =
      log ++ [Request.virtgpu_getparam K.VIRTGPU_PARAM_RESOURCE_BLOB] := by
  unfold isVirtioGpuWithBlob
  by_cases h : (fd.virtgpu_getparam log K.VIRTGPU_PARAM_RESOURCE_BLOB).1 ≠ 0 ∨
      (fd.virtgpu_getparam log K.VIRTGPU_PARAM_RESOURCE_BLOB).2.getD 0 ≠ 1
  · simp only [h, if_true]
  · simp only [h, if_false]

theorem isVirtioGpuAllowP2p_log (fd : Transport) (log : List Request) :
    (isVirtioGpuAllowP2p fd log).2 =
      log ++ [Request.virtgpu_getparam VIRTGPU_PARAM_ALLOW_P2P] := by
  unfold isVirtioGpuAllowP2p
  by_cases h : (fd.virtgpu_getparam log VIRTGPU_PARAM_ALLOW_P2P).1 ≠ 0 ∨
      (fd.virtgpu_getparam log VIRTGPU_PARAM_ALLOW_P2P).2.getD 0 ≠ 1
  · simp only [h, if_true]
  · simp only [h, if_false]

/-- With a chipset-id query that succeeds with the 16-bit identifier `d`,
`isIntelDg2` compares `GEN_VERSION_X10` of the record left by the lookup with 125. -/
theorem isIntelDg2_of_query (K : Headers) (fd : Transport) (log : List Request)
    (info : intel_gpu_info) (d : Nat) (hd : d < 65536)
    (hq : fd.i915_getparam log K.I915_PARAM_CHIPSET_ID = (0, some (d : Int))) :
    isIntelDg2 K fd log info =
      (decide (GEN_VERSION_X10 (intel_gpu_info_from_device_id d info).2 = 125),
       log ++ [Request.i915_getparam K.I915_PARAM_CHIPSET_ID]) := by
  have h1 : (d : Int) ≠ -1 := by omega
  have h2 : ((d : Int) % 65536).toNat = d := by omega
  simp [isIntelDg2, gem_param, hq, h1, h2]

/-- With driver name `i915`, `get_gpu_type` is decided by `isIntelDg2`. -/
theorem get_gpu_type_i915 (K : Headers) (fd : Transport) (log : List Request)
    (info : intel_gpu_info) (hname : fd.drmGetVersion log = some "i915") :
    get_gpu_type K fd log info =
      (if (isIntelDg2 K fd (log ++ [Request.drmGetVersion]) info).1 = true
        then K.GPU_GRP_TYPE_INTEL_DGPU_IDX else K.GPU_GRP_TYPE_INTEL_IGPU_IDX,
       (isIntelDg2 K fd (log ++ [Request.drmGetVersion]) info).2) := by
  unfold get_gpu_type
  simp only [hname, if_true]
  cases (isIntelDg2 K fd (log ++ [Request.drmGetVersion]) info).1 <;> simp

/-- With driver name `virtio_gpu`, `get_gpu_type` is the three-probe decision tree. -/
theorem get_gpu_type_virtio (K : Headers) (fd : Transport) (log : List Request)
    (info : intel_gpu_info) (hname : fd.drmGetVersion log = some "virtio_gpu") :
    get_gpu_type K fd log info =
      if (isVirtioGpuPciDevice fd (log ++ [Request.drmGetVersion])).1 = false then
        (K.GPU_GRP_TYPE_VIRTIO_GPU_IVSHMEM_IDX,
         log ++ [Request.drmGetVersion] ++ [Request.virtgpu_getparam VIRTGPU_PARAM_QUERY_DEV])
      else if (isVirtioGpuWithBlob K fd (log ++ [Request.drmGetVersion] ++
          [Request.virtgpu_getparam VIRTGPU_PARAM_QUERY_DEV])).1 = false then
        (K.GPU_GRP_TYPE_VIRTIO_GPU_NO_BLOB_IDX,
         log ++ [Request.drmGetVersion] ++ [Request.virtgpu_getparam VIRTGPU_PARAM_QUERY_DEV] ++
           [Request.virtgpu_getparam K.VIRTGPU_PARAM_RESOURCE_BLOB])
      else if (isVirtioGpuAllowP2p fd (log ++ [Request.drmGetVersion] ++
          [Request.virtgpu_getparam VIRTGPU_PARAM_QUERY_DEV] ++
          [Request.virtgpu_getparam K.VIRTGPU_PARAM_RESOURCE_BLOB])).1 = true then
        (K.GPU_GRP_TYPE_VIRTIO_GPU_BLOB_P2P_IDX,
         log ++ [Request.drmGetVersion] ++ [Request.virtgpu_getparam VIRTGPU_PARAM_QUERY_DEV] ++
           [Request.virtgpu_getparam K.VIRTGPU_PARAM_RESOURCE_BLOB] ++
           [Request.virtgpu_getparam VIRTGPU_PARAM_ALLOW_P2P])
      else
        (K.GPU_GRP_TYPE_VIRTIO_GPU_BLOB_IDX,
         log ++ [Request.drmGetVersion] ++ [Request.virtgpu_getparam VIRTGPU_PARAM_QUERY_DEV] ++
           [Request.virtgpu_getparam K.VIRTGPU_PARAM_RESOURCE_BLOB] ++
           [Request.virtgpu_getparam VIRTGPU_PARAM_ALLOW_P2P]) := by
  have hne : ¬ ("virtio_gpu" : String) = "i915" := by decide
  unfold get_gpu_type
  simp only [hname, hne, if_true, if_false, isVirtioGpuPciDevice_log, isVirtioGpuWithBlob_log,
    isVirtioGpuAllowP2p_log]
  cases (isVirtioGpuPciDevice fd (log ++ [Request.drmGetVersion])).1 <;>
  cases (isVirtioGpuWithBlob K fd (log ++ [Request.drmGetVersion] ++
          [Request.virtgpu_getparam VIRTGPU_PARAM_QUERY_DEV])).1 <;>
  cases (isVirtioGpuAllowP2p fd (log ++ [Request.drmGetVersion] ++
          [Request.virtgpu_getparam VIRTGPU_PARAM_QUERY_DEV] ++
          [Request.virtgpu_getparam K.VIRTGPU_PARAM_RESOURCE_BLOB])).1 <;>
  simp

/-! ## The classifier (claims C6 - C10) -/

/-- C6: if the driver name query reports `i915` and the chipset-id query succeeds
with an identifier `d` that the lookup maps to major version 12 and sub-version 5,
then `isIntelDg2` (as called by `get_gpu_type`) returns `true` and `get_gpu_type`
returns `GPU_GRP_TYPE_INTEL_DGPU_IDX`, whatever the local record `info` held. -/
theorem C6_dg2_is_discrete (K : Headers) (fd : Transport) (log : List Request)
    (info : intel_gpu_info) (d : Nat) (r0 : intel_gpu_info)
    (hname : fd.drmGetVersion log = some "i915")
    (hq : fd.i915_getparam (log ++ [Request.drmGetVersion]) K.I915_PARAM_CHIPSET_ID =
      (0, some (d : Int)))
    (hret : (intel_gpu_info_from_device_id d r0).1 = 0)
    (hgv : (intel_gpu_info_from_device_id d r0).2.graphics_version = 12)
    (hsv : (intel_gpu_info_from_device_id d r0).2.sub_version = 5) :
    (isIntelDg2 K fd (log ++ [Request.drmGetVersion]) info).1 = true ∧
    (get_gpu_type K fd log info).1 = K.GPU_GRP_TYPE_INTEL_DGPU_IDX := by
  have hd : d < 65536 := lookup_ok_lt d r0 hret
  have heq : intel_gpu_info_from_device_id d info = intel_gpu_info_from_device_id d r0 :=
    lookup_indep d r0 info hret (by rw [hgv]; decide)
  have hx : GEN_VERSION_X10 (intel_gpu_info_from_device_id d info).2 = 125 := by
    unfold GEN_VERSION_X10
    rw [heq, hgv, hsv]
    decide
  have hI : (isIntelDg2 K fd (log ++ [Request.drmGetVersion]) info).1 = true := by
    rw [isIntelDg2_of_query K fd _ info d hd hq]
    simp [hx]
  refine ⟨hI, ?_⟩
  rw [get_gpu_type_i915 K fd log info hname]
  simp [hI]

/-- C6 (witness): an `i915` device reporting the dg2 identifier `0x56A0`. -/
theorem C6_dg2_is_discrete_witness :
    (isIntelDg2 sample_headers (sample_fd "i915" 0x56A0 (fun _ => 0))
      ([] ++ [Request.drmGetVersion]) ⟨0, 0, false⟩).1 = true ∧
    (get_gpu_type sample_headers (sample_fd "i915" 0x56A0 (fun _ => 0)) [] ⟨0, 0, false⟩).1 =
      sample_headers.GPU_GRP_TYPE_INTEL_DGPU_IDX :=
  C6_dg2_is_discrete sample_headers (sample_fd "i915" 0x56A0 (fun _ => 0)) [] ⟨0, 0, false⟩
    0x56A0 ⟨0, 0, false⟩ rfl rfl (by decide!) (by decide!) (by decide!)

/-- C7: if the driver name query reports `i915` and the chipset-id query succeeds
with an identifier `d` that is a literal of `gen9_ids`, or that the lookup maps to
major version 9 and sub-version 0, then `get_gpu_type` returns
`GPU_GRP_TYPE_INTEL_IGPU_IDX`, whatever the local record `info` held. -/
theorem C7_gen9_is_integrated (K : Headers) (fd : Transport) (log : List Request)
    (info : intel_gpu_info) (d : Nat) (r0 : intel_gpu_info)
    (hname : fd.drmGetVersion log = some "i915")
    (hq : fd.i915_getparam (log ++ [Request.drmGetVersion]) K.I915_PARAM_CHIPSET_ID =
      (0, some (d : Int)))
    (hd9 : d ∈ gen9_ids ∨
      ((intel_gpu_info_from_device_id d r0).1 = 0 ∧
       (intel_gpu_info_from_device_id d r0).2.graphics_version = 9 ∧
       (intel_gpu_info_from_device_id d r0).2.sub_version = 0)) :
    (get_gpu_type K fd log info).1 = K.GPU_GRP_TYPE_INTEL_IGPU_IDX := by
  have h9 : (intel_gpu_info_from_device_id d r0).1 = 0 ∧
      (intel_gpu_info_from_device_id d r0).2.graphics_version = 9 ∧
      (intel_gpu_info_from_device_id d r0).2.sub_version = 0 := by
    rcases hd9 with h | h
    · rw [lookup_of_table gen9_ids ⟨9, 0, false⟩ (by decide) (by decide!) d h r0]
      exact ⟨rfl, rfl, rfl⟩
    · exact h
  obtain ⟨hret, hgv, hsv⟩ := h9
  have hd : d < 65536 := lookup_ok_lt d r0 hret
  have heq : intel_gpu_info_from_device_id d info = intel_gpu_info_from_device_id d r0 :=
    lookup_indep d r0 info hret (by rw [hgv]; decide)
  have hx : GEN_VERSION_X10 (intel_gpu_info_from_device_id d info).2 ≠ 125 := by
    unfold GEN_VERSION_X10
    rw [heq, hgv, hsv]
    decide
  have hI : (isIntelDg2 K fd (log ++ [Request.drmGetVersion]) info).1 = false := by
    rw [isIntelDg2_of_query K fd _ info d hd hq]
    simp [hx]
  rw [get_gpu_type_i915 K fd log info hname]
  simp [hI]

/-- C7 (witness): an `i915` device reporting the gen9 identifier `0x1902`. -/
theorem C7_gen9_is_integrated_witness :
    0x1902 ∈ gen9_ids ∧
    (get_gpu_type sample_headers (sample_fd "i915" 0x1902 (fun _ => 0)) [] ⟨12, 5, false⟩).1 =
      sample_headers.GPU_GRP_TYPE_INTEL_IGPU_IDX :=
  ⟨by decide!,
   C7_gen9_is_integrated sample_headers (sample_fd "i915" 0x1902 (fun _ => 0)) []
     ⟨12, 5, false⟩ 0x1902 ⟨0, 0, false⟩ rfl rfl (Or.inl (by decide!))⟩

/-- C8: with driver name `virtio_gpu` and `isVirtioGpuPciDevice` true,
`get_gpu_type` returns `GPU_GRP_TYPE_VIRTIO_GPU_NO_BLOB_IDX` when
`isVirtioGpuWithBlob` is false, `GPU_GRP_TYPE_VIRTIO_GPU_BLOB_P2P_IDX` when
`isVirtioGpuWithBlob` and `isVirtioGpuAllowP2p` are true, and
`GPU_GRP_TYPE_VIRTIO_GPU_BLOB_IDX` when `isVirtioGpuWithBlob` is true and
`isVirtioGpuAllowP2p` is false; each probe is taken at the point of the trace at
which `get_gpu_type` calls it. -/
theorem C8_virtio_pci_tree (K : Headers) (fd : Transport) (log : List Request)
    (info : intel_gpu_info)
    (hname : fd.drmGetVersion log = some "virtio_gpu")
    (hpci : (isVirtioGpuPciDevice fd (log ++ [Request.drmGetVersion])).1 = true) :
    ((isVirtioGpuWithBlob K fd (log ++ [Request.drmGetVersion] ++
        [Request.virtgpu_getparam VIRTGPU_PARAM_QUERY_DEV])).1 = false →
      (get_gpu_type K fd log info).1 = K.GPU_GRP_TYPE_VIRTIO_GPU_NO_BLOB_IDX) ∧
    ((isVirtioGpuWithBlob K fd (log ++ [Request.drmGetVersion] ++
        [Request.virtgpu_getparam VIRTGPU_PARAM_QUERY_DEV])).1 = true →
      (isVirtioGpuAllowP2p fd (log ++ [Request.drmGetVersion] ++
        [Request.virtgpu_getparam VIRTGPU_PARAM_QUERY_DEV] ++
        [Request.virtgpu_getparam K.VIRTGPU_PARAM_RESOURCE_BLOB])).1 = true →
      (get_gpu_type K fd log info).1 = K.GPU_GRP_TYPE_VIRTIO_GPU_BLOB_P2P_IDX) ∧
    ((isVirtioGpuWithBlob K fd (log ++ [Request.drmGetVersion] ++
        [Request.virtgpu_getparam VIRTGPU_PARAM_QUERY_DEV])).1 = true →
      (isVirtioGpuAllowP2p fd (log ++ [Request.drmGetVersion] ++
        [Request.virtgpu_getparam VIRTGPU_PARAM_QUERY_DEV] ++
        [Request.virtgpu_getparam K.VIRTGPU_PARAM_RESOURCE_BLOB])).1 = false →
      (get_gpu_type K fd log info).1 = K.GPU_GRP_TYPE_VIRTIO_GPU_BLOB_IDX) := by
  rw [get_gpu_type_virtio K fd log info hname]
  refine ⟨?_, ?_, ?_⟩
  · intro hb
    simp only [hpci, hb, if_true, Bool.true_eq_false, if_false]
  · intro hb hp
    simp only [hpci, hb, hp, if_true, Bool.true_eq_false, if_false]
  · intro hb hp
    simp only [hpci, hb, hp, Bool.true_eq_false, Bool.false_eq_true, if_false]

/-- C8 (witness): a `virtio_gpu` device answering `1` to every parameter query is
classified as `GPU_GRP_TYPE_VIRTIO_GPU_BLOB_P2P_IDX`. -/
theorem C8_virtio_pci_tree_witness :
    (isVirtioGpuPciDevice (sample_fd "virtio_gpu" 0 (fun _ => 1))
      ([] ++ [Request.drmGetVersion])).1 = true ∧
    (get_gpu_type sample_headers (sample_fd "virtio_gpu" 0 (fun _ => 1)) [] ⟨0, 0, false⟩).1 =
      sample_headers.GPU_GRP_TYPE_VIRTIO_GPU_BLOB_P2P_IDX :=
  ⟨rfl,
   (C8_virtio_pci_tree sample_headers (sample_fd "virtio_gpu" 0 (fun _ => 1)) []
     ⟨0, 0, false⟩ rfl rfl).2.1 rfl rfl⟩

/-- C9: with driver name `virtio_gpu`, when `isVirtioGpuPciDevice` is false
`get_gpu_type` returns `GPU_GRP_TYPE_VIRTIO_GPU_IVSHMEM_IDX` and the requests it
has issued are the name query and the query-dev query only; in general the
resource-blob query follows only a true `isVirtioGpuPciDevice` and the allow-P2P
query only a true `isVirtioGpuWithBlob`. -/
theorem C9_virtio_short_circuit (K : Headers) (fd : Transport) (log : List Request)
    (info : intel_gpu_info)
    (hname : fd.drmGetVersion log = some "virtio_gpu") :
    ((isVirtioGpuPciDevice fd (log ++ [Request.drmGetVersion])).1 = false →
      get_gpu_type K fd log info =
        (K.GPU_GRP_TYPE_VIRTIO_GPU_IVSHMEM_IDX,
         log ++ [Request.drmGetVersion] ++
           [Request.virtgpu_getparam VIRTGPU_PARAM_QUERY_DEV])) ∧
    (get_gpu_type K fd log info).2 =
      log ++ [Request.drmGetVersion] ++ [Request.virtgpu_getparam VIRTGPU_PARAM_QUERY_DEV] ++
        (if (isVirtioGpuPciDevice fd (log ++ [Request.drmGetVersion])).1 = true then
          [Request.virtgpu_getparam K.VIRTGPU_PARAM_RESOURCE_BLOB] ++
            (if (isVirtioGpuWithBlob K fd (log ++ [Request.drmGetVersion] ++
                [Request.virtgpu_getparam VIRTGPU_PARAM_QUERY_DEV])).1 = true then
              [Request.virtgpu_getparam VIRTGPU_PARAM_ALLOW_P2P]
            else [])
        else []) := by
  rw [get_gpu_type_virtio K fd log info hname]
  constructor
  · intro hp
    simp [hp]
  · cases (isVirtioGpuPciDevice fd (log ++ [Request.drmGetVersion])).1 <;>
    cases (isVirtioGpuWithBlob K fd (log ++ [Request.drmGetVersion] ++
          [Request.virtgpu_getparam VIRTGPU_PARAM_QUERY_DEV])).1 <;>
    cases (isVirtioGpuAllowP2p fd (log ++ [Request.drmGetVersion] ++
          [Request.virtgpu_getparam VIRTGPU_PARAM_QUERY_DEV] ++
          [Request.virtgpu_getparam K.VIRTGPU_PARAM_RESOURCE_BLOB])).1 <;>
    simp

/-- C9 (witness): a `virtio_gpu` device answering `1` to the resource-blob and
allow-P2P queries but `0` to query-dev is classified as
`GPU_GRP_TYPE_VIRTIO_GPU_IVSHMEM_IDX` after two requests. -/
theorem C9_virtio_short_circuit_witness :
    get_gpu_type sample_headers
        (sample_fd "virtio_gpu" 0 (fun p => if p = VIRTGPU_PARAM_QUERY_DEV then 0 else 1)) []
        ⟨0, 0, false⟩ =
      (sample_headers.GPU_GRP_TYPE_VIRTIO_GPU_IVSHMEM_IDX,
       [] ++ [Request.drmGetVersion] ++ [Request.virtgpu_getparam VIRTGPU_PARAM_QUERY_DEV]) :=
  (C9_virtio_short_circuit sample_headers
    (sample_fd "virtio_gpu" 0 (fun p => if p = VIRTGPU_PARAM_QUERY_DEV then 0 else 1)) []
    ⟨0, 0, false⟩ rfl).1 rfl

/-- C10: if the driver name query succeeds with a name that is neither `i915` nor
`virtio_gpu`, `get_gpu_type` returns `-1` and the name query is the only request
it has issued. -/
theorem C10_unknown_driver (K : Headers) (fd : Transport) (log : List Request)
    (info : intel_gpu_info) (name : String)
    (hname : fd.drmGetVersion log = some name)
    (h1 : name ≠ "i915") (h2 : name ≠ "virtio_gpu") :
    get_gpu_type K fd log info = (-1, log ++ [Request.drmGetVersion]) := by
  unfold get_gpu_type
  simp only [hname, h1, h2, if_false]

/-- C10 (witness): a device whose driver is `amdgpu`. -/
theorem C10_unknown_driver_witness :
    get_gpu_type sample_headers (sample_fd "amdgpu" 0x56A0 (fun _ => 1)) [] ⟨12, 5, false⟩ =
      (-1, [] ++ [Request.drmGetVersion]) :=
  C10_unknown_driver sample_headers (sample_fd "amdgpu" 0x56A0 (fun _ => 1)) [] ⟨12, 5, false⟩
    "amdgpu" rfl (by decide) (by decide)

/-! ## Further lemmas on the lookup and the probes -/

/-- A failed lookup leaves the output record as it was. -/
theorem lookup_fail_keep (d : Nat) (r : intel_gpu_info)
    (h : (intel_gpu_info_from_device_id d r).1 = -1) :
    (intel_gpu_info_from_device_id d r).2 = r := by
  rw [lookup_eq_branches] at h ⊢
  exact branches_fail_keep _ _ _ _ _ _ _ _ _ _ _ _ r h

/-- A successful lookup leaves one of the nine major versions of the branches. -/
theorem lookup_versions (d : Nat) (r : intel_gpu_info)
    (h : (intel_gpu_info_from_device_id d r).1 = 0) :
    (intel_gpu_info_from_device_id d r).2.graphics_version ∈
      ([4, 5, 6, 7, 8, 9, 11, 12, 14] : List Int) := by
  rw [lookup_eq_branches] at h ⊢
  exact branches_versions _ _ _ _ _ _ _ _ _ _ _ _ r h

/-- A non-zero `drmIoctl` status makes `gem_param` return `-1`. -/
theorem gem_param_fail (fd : Transport) (log : List Request) (name : Int)
    (hq : (fd.i915_getparam log name).1 ≠ 0) :
    gem_param fd log name = (-1, log ++ [Request.i915_getparam name]) := by
  unfold gem_param
  simp only [hq, ne_eq, not_false_eq_true, if_true]

/-- The function `gem_param` issues exactly one request. -/
theorem gem_param_log (fd : Transport) (log : List Request) (name : Int) :
    (gem_param fd log name).2 = log ++ [Request.i915_getparam name] := by
  unfold gem_param
  by_cases h : (fd.i915_getparam log name).1 ≠ 0
  · rw [if_pos h]
  · rw [if_neg h]

/-- The function `isIntelDg2` issues exactly one request, the chipset-id query. -/
theorem isIntelDg2_log (K : Headers) (fd : Transport) (log : List Request)
    (info : intel_gpu_info) :
    (isIntelDg2 K fd log info).2 = log ++ [Request.i915_getparam K.I915_PARAM_CHIPSET_ID] := by
  unfold isIntelDg2
  by_cases h : (gem_param fd log K.I915_PARAM_CHIPSET_ID).1 = -1
  · simp only [h, if_true, gem_param_log]
  · simp only [h, if_false, gem_param_log]

/-- A failed chipset-id query makes `isIntelDg2` return `false` at once. -/
theorem isIntelDg2_fail (K : Headers) (fd : Transport) (log : List Request)
    (info : intel_gpu_info) (hq : (fd.i915_getparam log K.I915_PARAM_CHIPSET_ID).1 ≠ 0) :
    isIntelDg2 K fd log info =
      (false, log ++ [Request.i915_getparam K.I915_PARAM_CHIPSET_ID]) := by
  unfold isIntelDg2
  simp only [gem_param_fail fd log _ hq, if_true]

/-- A failed driver name query ends `get_gpu_type` at once. -/
theorem get_gpu_type_none (K : Headers) (fd : Transport) (log : List Request)
    (info : intel_gpu_info) (hname : fd.drmGetVersion log = none) :
    get_gpu_type K fd log info = (-1, log ++ [Request.drmGetVersion]) := by
  unfold get_gpu_type
  simp only [hname]

/-- A driver name other than `i915` and `virtio_gpu` ends `get_gpu_type` at once. -/
theorem get_gpu_type_other (K : Headers) (fd : Transport) (log : List Request)
    (info : intel_gpu_info) (name : String) (hname : fd.drmGetVersion log = some name)
    (h1 : name ≠ "i915") (h2 : name ≠ "virtio_gpu") :
    get_gpu_type K fd log info = (-1, log ++ [Request.drmGetVersion]) := by
  unfold get_gpu_type
  simp only [hname, h1, h2, if_false]

/-- With driver name `virtio_gpu`, the requests of `get_gpu_type` after the name
query are query-dev, then resource-blob after a true `isVirtioGpuPciDevice`, then
allow-P2P after a true `isVirtioGpuWithBlob`. -/
theorem get_gpu_type_virtio_log (K : Headers) (fd : Transport) (log : List Request)
    (info : intel_gpu_info) (hname : fd.drmGetVersion log = some "virtio_gpu") :
    (get_gpu_type K fd log info).2 =
      log ++ Request.drmGetVersion :: Request.virtgpu_getparam VIRTGPU_PARAM_QUERY_DEV ::
        (if (isVirtioGpuPciDevice fd (log ++ [Request.drmGetVersion])).1 = true then
          Request.virtgpu_getparam K.VIRTGPU_PARAM_RESOURCE_BLOB ::
            (if (isVirtioGpuWithBlob K fd (log ++ [Request.drmGetVersion] ++
                [Request.virtgpu_getparam VIRTGPU_PARAM_QUERY_DEV])).1 = true then
              [Request.virtgpu_getparam VIRTGPU_PARAM_ALLOW_P2P]
            else [])
        else []) := by
  rw [get_gpu_type_virtio K fd log info hname]
  cases (isVirtioGpuPciDevice fd (log ++ [Request.drmGetVersion])).1 <;>
  cases (isVirtioGpuWithBlob K fd (log ++ [Request.drmGetVersion] ++
        [Request.virtgpu_getparam VIRTGPU_PARAM_QUERY_DEV])).1 <;>
  cases (isVirtioGpuAllowP2p fd (log ++ [Request.drmGetVersion] ++
        [Request.virtgpu_getparam VIRTGPU_PARAM_QUERY_DEV] ++
        [Request.virtgpu_getparam K.VIRTGPU_PARAM_RESOURCE_BLOB])).1 <;>
  simp

/-- Unless the driver name is `i915`, `get_gpu_type` issues no `i915` parameter
query. -/
theorem get_gpu_type_no_i915_query (K : Headers) (fd : Transport) (log : List Request)
    (info : intel_gpu_info) (hname : fd.drmGetVersion log ≠ some "i915") :
    ∃ rest, (get_gpu_type K fd log info).2 = log ++ Request.drmGetVersion :: rest ∧
      ∀ q ∈ rest, ∀ p, q ≠ Request.i915_getparam p := by
  cases hv : fd.drmGetVersion log with
  | none =>
    refine ⟨[], ?_, ?_⟩
    · rw [get_gpu_type_none K fd log info hv]
    · intro q hq
      exact absurd hq (List.not_mem_nil q)
  | some name =>
    have h1 : name ≠ "i915" := by
      intro e
      rw [hv, e] at hname
      exact hname rfl
    by_cases h2 : name = "virtio_gpu"
    · rw [h2] at hv
      refine ⟨_, get_gpu_type_virtio_log K fd log info hv, ?_⟩
      intro q hq p e
      subst e
      cases (isVirtioGpuPciDevice fd (log ++ [Request.drmGetVersion])).1 <;>
      cases (isVirtioGpuWithBlob K fd (log ++ [Request.drmGetVersion] ++
            [Request.virtgpu_getparam VIRTGPU_PARAM_QUERY_DEV])).1 <;>
      simp at hq
    · refine ⟨[], ?_, ?_⟩
      · rw [get_gpu_type_other K fd log info name hv h1 h2]
      · intro q hq
        exact absurd hq (List.not_mem_nil q)

/-! ## Probes and error paths (claims C11 - C20) -/

/-- C11: if the driver name query fails (`drmGetVersion` returns `NULL`),
`get_gpu_type` returns `-1` and the name query is the only request it has issued. -/
theorem C11_version_query_fails (K : Headers) (fd : Transport) (log : List Request)
    (info : intel_gpu_info) (hname : fd.drmGetVersion log = none) :
    get_gpu_type K fd log info = (-1, log ++ [Request.drmGetVersion]) :=
  get_gpu_type_none K fd log info hname

/-- C11 (witness): a device whose driver name query fails. -/
theorem C11_version_query_fails_witness :
    get_gpu_type sample_headers (sample_fd_err none) [] ⟨12, 5, false⟩ =
      (-1, [] ++ [Request.drmGetVersion]) :=
  C11_version_query_fails sample_headers (sample_fd_err none) [] ⟨12, 5, false⟩ rfl

/-- C12: each of `isVirtioGpuAllowP2p`, `isVirtioGpuPciDevice`, `isVirtioGpuWithBlob`
returns `true` exactly when its parameter query (allow-P2P, query-dev, resource-blob)
has status `0` and leaves the value `1` in the variable `value`, which starts at
`0`; and it issues that one query only. -/
theorem C12_virtio_probe_iff (K : Headers) (fd : Transport) (log : List Request) :
    (((isVirtioGpuAllowP2p fd log).1 = true ↔
        (fd.virtgpu_getparam log VIRTGPU_PARAM_ALLOW_P2P).1 = 0 ∧
        (fd.virtgpu_getparam log VIRTGPU_PARAM_ALLOW_P2P).2.getD 0 = 1) ∧
      (isVirtioGpuAllowP2p fd log).2 =
        log ++ [Request.virtgpu_getparam VIRTGPU_PARAM_ALLOW_P2P]) ∧
    (((isVirtioGpuPciDevice fd log).1 = true ↔
        (fd.virtgpu_getparam log VIRTGPU_PARAM_QUERY_DEV).1 = 0 ∧
        (fd.virtgpu_getparam log VIRTGPU_PARAM_QUERY_DEV).2.getD 0 = 1) ∧
      (isVirtioGpuPciDevice fd log).2 =
        log ++ [Request.virtgpu_getparam VIRTGPU_PARAM_QUERY_DEV]) ∧
    (((isVirtioGpuWithBlob K fd log).1 = true ↔
        (fd.virtgpu_getparam log K.VIRTGPU_PARAM_RESOURCE_BLOB).1 = 0 ∧
        (fd.virtgpu_getparam log K.VIRTGPU_PARAM_RESOURCE_BLOB).2.getD 0 = 1) ∧
      (isVirtioGpuWithBlob K fd log).2 =
        log ++ [Request.virtgpu_getparam K.VIRTGPU_PARAM_RESOURCE_BLOB]) := by
  refine ⟨⟨?_, isVirtioGpuAllowP2p_log fd log⟩, ⟨?_, isVirtioGpuPciDevice_log fd log⟩,
    ⟨?_, isVirtioGpuWithBlob_log K fd log⟩⟩
  · unfold isVirtioGpuAllowP2p
    by_cases h : (fd.virtgpu_getparam log VIRTGPU_PARAM_ALLOW_P2P).1 ≠ 0 ∨
        (fd.virtgpu_getparam log VIRTGPU_PARAM_ALLOW_P2P).2.getD 0 ≠ 1
    · simp only [h, if_true]
      constructor
      · intro hc
        exact absurd hc (by decide)
      · rintro ⟨h1, h2⟩
        rcases h with h | h
        · exact absurd h1 h
        · exact absurd h2 h
    · simp only [h, if_false]
      rw [not_or, not_not, not_not] at h
      exact ⟨fun _ => h, fun _ => trivial⟩
  · unfold isVirtioGpuPciDevice
    by_cases h : (fd.virtgpu_getparam log VIRTGPU_PARAM_QUERY_DEV).1 ≠ 0 ∨
        (fd.virtgpu_getparam log VIRTGPU_PARAM_QUERY_DEV).2.getD 0 ≠ 1
    · simp only [h, if_true]
      constructor
      · intro hc
        exact absurd hc (by decide)
      · rintro ⟨h1, h2⟩
        rcases h with h | h
        · exact absurd h1 h
        · exact absurd h2 h
    · simp only [h, if_false]
      rw [not_or, not_not, not_not] at h
      exact ⟨fun _ => h, fun _ => trivial⟩
  · unfold isVirtioGpuWithBlob
    by_cases h : (fd.virtgpu_getparam log K.VIRTGPU_PARAM_RESOURCE_BLOB).1 ≠ 0 ∨
        (fd.virtgpu_getparam log K.VIRTGPU_PARAM_RESOURCE_BLOB).2.getD 0 ≠ 1
    · simp only [h, if_true]
      constructor
      · intro hc
        exact absurd hc (by decide)
      · rintro ⟨h1, h2⟩
        rcases h with h | h
        · exact absurd h1 h
        · exact absurd h2 h
    · simp only [h, if_false]
      rw [not_or, not_not, not_not] at h
      exact ⟨fun _ => h, fun _ => trivial⟩

/-- C13 (failing input): the chipset-id query succeeds with `0x0000`, which is in
no id list, so the lookup returns `-1` and writes nothing; when the local record
of `isIntelDg2` happens to hold `(12, 5, false)` the function returns `true`,
because the status of the lookup is not tested. With `(0, 0, false)` in the local
record it returns `false`. -/
theorem C13_failed_lookup_reads_local_record :
    (intel_gpu_info_from_device_id 0x0000 ⟨12, 5, false⟩).1 = -1 ∧
    (sample_fd "i915" 0x0000 (fun _ => 0)).i915_getparam []
      sample_headers.I915_PARAM_CHIPSET_ID = (0, some 0x0000) ∧
    (isIntelDg2 sample_headers (sample_fd "i915" 0x0000 (fun _ => 0)) []
      ⟨12, 5, false⟩).1 = true ∧
    (isIntelDg2 sample_headers (sample_fd "i915" 0x0000 (fun _ => 0)) []
      ⟨0, 0, false⟩).1 = false := by
  decide!

/-- C14 (failing input): the chipset-id query succeeds with the `gen7_ids` literal
`0x0152`; the lookup succeeds and leaves major version 7, yet `isIntelDg2` returns
`true` when the local record held sub-version 55 (70 + 55 = 125) and `false` when
it held sub-version 0: the result depends on the initial contents of the record. -/
theorem C14_gen7_result_depends_on_local_record :
    intel_gpu_info_from_device_id 0x0152 ⟨0, 55, false⟩ = (0, ⟨7, 55, false⟩) ∧
    (isIntelDg2 sample_headers (sample_fd "i915" 0x0152 (fun _ => 0)) []
      ⟨0, 55, false⟩).1 = true ∧
    (isIntelDg2 sample_headers (sample_fd "i915" 0x0152 (fun _ => 0)) []
      ⟨0, 0, false⟩).1 = false := by
  decide!

/-- C15 (counterexample): a device whose driver name is `virtio_gpu` and whose
chipset-id query succeeds with the dg2 literal `0x56A0`: `isIntelDg2` returns
`true`. -/
theorem C15_isIntelDg2_ignores_driver_name :
    (sample_fd "virtio_gpu" 0x56A0 (fun _ => 0)).drmGetVersion [] = some "virtio_gpu" ∧
    ("virtio_gpu" : String) ≠ "i915" ∧
    0x56A0 ∈ dg2_ids ∧
    (isIntelDg2 sample_headers (sample_fd "virtio_gpu" 0x56A0 (fun _ => 0)) []
      ⟨0, 0, false⟩).1 = true := by
  decide!

/-- C15 (amended): `isIntelDg2` makes no driver-family check. When the chipset-id
query succeeds with a literal of `dg2_ids` it returns `true` whatever the driver
name is, and the chipset-id query is its only request. The driver-family check is
made by the caller: unless the driver name is `i915`, `get_gpu_type` issues no
`i915` parameter query, so it does not call `isIntelDg2`. -/
theorem C15_driver_check_is_in_caller (K : Headers) (fd : Transport) (log : List Request)
    (info : intel_gpu_info) (d : Nat) (hd : d ∈ dg2_ids)
    (hq : fd.i915_getparam log K.I915_PARAM_CHIPSET_ID = (0, some (d : Int))) :
    isIntelDg2 K fd log info =
      (true, log ++ [Request.i915_getparam K.I915_PARAM_CHIPSET_ID]) ∧
    (∀ (log0 : List Request) (info0 : intel_gpu_info),
      fd.drmGetVersion log0 ≠ some "i915" →
      ∃ rest, (get_gpu_type K fd log0 info0).2 = log0 ++ Request.drmGetVersion :: rest ∧
        ∀ q ∈ rest, ∀ p, q ≠ Request.i915_getparam p) := by
  constructor
  · have hl : intel_gpu_info_from_device_id d info = (0, ⟨12, 5, false⟩) :=
      lookup_of_table dg2_ids ⟨12, 5, false⟩ (by decide) (by decide!) d hd info
    have hlt : d < 65536 := lookup_ok_lt d info (by rw [hl])
    rw [isIntelDg2_of_query K fd log info d hlt hq, hl]
    have hx : GEN_VERSION_X10 ⟨12, 5, false⟩ = 125 := by decide
    simp [hx]
  · intro log0 info0 hname
    exact get_gpu_type_no_i915_query K fd log0 info0 hname

/-- C15 (witness): the amended claim on a `virtio_gpu` device whose chipset-id
query answers the dg2 literal `0x56A0`. -/
theorem C15_driver_check_is_in_caller_witness :
    0x56A0 ∈ dg2_ids ∧
    isIntelDg2 sample_headers (sample_fd "virtio_gpu" 0x56A0 (fun _ => 0)) [] ⟨0, 0, false⟩ =
      (true, [] ++ [Request.i915_getparam sample_headers.I915_PARAM_CHIPSET_ID]) :=
  ⟨by decide!,
   (C15_driver_check_is_in_caller sample_headers (sample_fd "virtio_gpu" 0x56A0 (fun _ => 0)) []
     ⟨0, 0, false⟩ 0x56A0 (by decide!) rfl).1⟩

/-- C16: if the chipset-id query fails (non-zero `drmIoctl` status), `gem_param`
returns `-1`, `isIntelDg2` returns `false` whatever its local record holds (the
early return comes before the lookup), and `get_gpu_type` on a device whose driver
name is `i915` returns `GPU_GRP_TYPE_INTEL_IGPU_IDX`. -/
theorem C16_chipset_query_fails (K : Headers) (fd : Transport) (lg : List Request)
    (hq : (fd.i915_getparam lg K.I915_PARAM_CHIPSET_ID).1 ≠ 0) :
    gem_param fd lg K.I915_PARAM_CHIPSET_ID =
      (-1, lg ++ [Request.i915_getparam K.I915_PARAM_CHIPSET_ID]) ∧
    (∀ info : intel_gpu_info, isIntelDg2 K fd lg info =
      (false, lg ++ [Request.i915_getparam K.I915_PARAM_CHIPSET_ID])) ∧
    (∀ (log : List Request) (info : intel_gpu_info), lg = log ++ [Request.drmGetVersion] →
      fd.drmGetVersion log = some "i915" →
      get_gpu_type K fd log info =
        (K.GPU_GRP_TYPE_INTEL_IGPU_IDX,
         log ++ [Request.drmGetVersion] ++
           [Request.i915_getparam K.I915_PARAM_CHIPSET_ID])) := by
  refine ⟨gem_param_fail fd lg _ hq, fun info => isIntelDg2_fail K fd lg info hq, ?_⟩
  intro log info hlg hname
  subst hlg
  rw [get_gpu_type_i915 K fd log info hname, isIntelDg2_fail K fd _ info hq]
  simp

/-- C16 (witness): an `i915` device whose parameter queries fail with status `-1`. -/
theorem C16_chipset_query_fails_witness :
    isIntelDg2 sample_headers (sample_fd_err (some "i915")) [Request.drmGetVersion]
        ⟨12, 5, false⟩ =
      (false, [Request.drmGetVersion] ++
        [Request.i915_getparam sample_headers.I915_PARAM_CHIPSET_ID]) ∧
    get_gpu_type sample_headers (sample_fd_err (some "i915")) [] ⟨12, 5, false⟩ =
      (sample_headers.GPU_GRP_TYPE_INTEL_IGPU_IDX,
       [] ++ [Request.drmGetVersion] ++
         [Request.i915_getparam sample_headers.I915_PARAM_CHIPSET_ID]) :=
  ⟨(C16_chipset_query_fails sample_headers (sample_fd_err (some "i915"))
      [Request.drmGetVersion] (by decide)).2.1 ⟨12, 5, false⟩,
   (C16_chipset_query_fails sample_headers (sample_fd_err (some "i915"))
      [Request.drmGetVersion] (by decide)).2.2 [] ⟨12, 5, false⟩ rfl rfl⟩

/-- C17: one call of `get_gpu_type` issues the driver name query and then no
parameter query when the name query fails or the name is unknown, exactly the
chipset-id query for `i915`, and for `virtio_gpu` query-dev, or query-dev and
resource-blob, or query-dev, resource-blob and allow-P2P, in that order; so it
issues exactly one name query and at most three parameter queries. Each probe
function issues exactly one parameter query per call. -/
theorem C17_requests_issued (K : Headers) (fd : Transport) (log : List Request)
    (info : intel_gpu_info) :
    (fd.drmGetVersion log = none →
      (get_gpu_type K fd log info).2 = log ++ [Request.drmGetVersion]) ∧
    (∀ name, fd.drmGetVersion log = some name → name ≠ "i915" → name ≠ "virtio_gpu" →
      (get_gpu_type K fd log info).2 = log ++ [Request.drmGetVersion]) ∧
    (fd.drmGetVersion log = some "i915" →
      (get_gpu_type K fd log info).2 =
        log ++ [Request.drmGetVersion, Request.i915_getparam K.I915_PARAM_CHIPSET_ID]) ∧
    (fd.drmGetVersion log = some "virtio_gpu" →
      (get_gpu_type K fd log info).2 =
        log ++ [Request.drmGetVersion, Request.virtgpu_getparam VIRTGPU_PARAM_QUERY_DEV] ∨
      (get_gpu_type K fd log info).2 =
        log ++ [Request.drmGetVersion, Request.virtgpu_getparam VIRTGPU_PARAM_QUERY_DEV,
          Request.virtgpu_getparam K.VIRTGPU_PARAM_RESOURCE_BLOB] ∨
      (get_gpu_type K fd log info).2 =
        log ++ [Request.drmGetVersion, Request.virtgpu_getparam VIRTGPU_PARAM_QUERY_DEV,
          Request.virtgpu_getparam K.VIRTGPU_PARAM_RESOURCE_BLOB,
          Request.virtgpu_getparam VIRTGPU_PARAM_ALLOW_P2P]) ∧
    (∃ rest, (get_gpu_type K fd log info).2 = log ++ Request.drmGetVersion :: rest ∧
      rest.length ≤ 3 ∧ Request.drmGetVersion ∉ rest) ∧
    (∀ (lg : List Request) (i : intel_gpu_info), (isIntelDg2 K fd lg i).2 =
      lg ++ [Request.i915_getparam K.I915_PARAM_CHIPSET_ID]) ∧
    (∀ lg : List Request, (isVirtioGpuAllowP2p fd lg).2 =
      lg ++ [Request.virtgpu_getparam VIRTGPU_PARAM_ALLOW_P2P]) ∧
    (∀ lg : List Request, (isVirtioGpuPciDevice fd lg).2 =
      lg ++ [Request.virtgpu_getparam VIRTGPU_PARAM_QUERY_DEV]) ∧
    (∀ lg : List Request, (isVirtioGpuWithBlob K fd lg).2 =
      lg ++ [Request.virtgpu_getparam K.VIRTGPU_PARAM_RESOURCE_BLOB]) := by
  have hnone : fd.drmGetVersion log = none →
      (get_gpu_type K fd log info).2 = log ++ [Request.drmGetVersion] := by
    intro h
    rw [get_gpu_type_none K fd log info h]
  have hother : ∀ name, fd.drmGetVersion log = some name → name ≠ "i915" →
      name ≠ "virtio_gpu" →
      (get_gpu_type K fd log info).2 = log ++ [Request.drmGetVersion] := by
    intro name h h1 h2
    rw [get_gpu_type_other K fd log info name h h1 h2]
  have hi915 : fd.drmGetVersion log = some "i915" →
      (get_gpu_type K fd log info).2 =
        log ++ [Request.drmGetVersion, Request.i915_getparam K.I915_PARAM_CHIPSET_ID] := by
    intro h
    rw [get_gpu_type_i915 K fd log info h, isIntelDg2_log]
    simp
  have hvirt : fd.drmGetVersion log = some "virtio_gpu" →
      (get_gpu_type K fd log info).2 =
        log ++ [Request.drmGetVersion, Request.virtgpu_getparam VIRTGPU_PARAM_QUERY_DEV] ∨
      (get_gpu_type K fd log info).2 =
        log ++ [Request.drmGetVersion, Request.virtgpu_getparam VIRTGPU_PARAM_QUERY_DEV,
          Request.virtgpu_getparam K.VIRTGPU_PARAM_RESOURCE_BLOB] ∨
      (get_gpu_type K fd log info).2 =
        log ++ [Request.drmGetVersion, Request.virtgpu_getparam VIRTGPU_PARAM_QUERY_DEV,
          Request.virtgpu_getparam K.VIRTGPU_PARAM_RESOURCE_BLOB,
          Request.virtgpu_getparam VIRTGPU_PARAM_ALLOW_P2P] := by
    intro h
    rw [get_gpu_type_virtio_log K fd log info h]
    cases (isVirtioGpuPciDevice fd (log ++ [Request.drmGetVersion])).1 <;>
    cases (isVirtioGpuWithBlob K fd (log ++ [Request.drmGetVersion] ++
          [Request.virtgpu_getparam VIRTGPU_PARAM_QUERY_DEV])).1 <;>
    simp
  refine ⟨hnone, hother, hi915, hvirt, ?_, fun lg i => isIntelDg2_log K fd lg i,
    fun lg => isVirtioGpuAllowP2p_log fd lg, fun lg => isVirtioGpuPciDevice_log fd lg,
    fun lg => isVirtioGpuWithBlob_log K fd lg⟩
  cases hv : fd.drmGetVersion log with
  | none => exact ⟨[], by rw [hnone hv], by simp, by simp⟩
  | some name =>
    by_cases h1 : name = "i915"
    · rw [h1] at hv
      exact ⟨[Request.i915_getparam K.I915_PARAM_CHIPSET_ID], by rw [hi915 hv], by simp,
        by simp⟩
    · by_cases h2 : name = "virtio_gpu"
      · rw [h2] at hv
        rcases hvirt hv with h | h | h
        · exact ⟨[Request.virtgpu_getparam VIRTGPU_PARAM_QUERY_DEV], by rw [h], by simp,
            by simp⟩
        · exact ⟨[Request.virtgpu_getparam VIRTGPU_PARAM_QUERY_DEV,
            Request.virtgpu_getparam K.VIRTGPU_PARAM_RESOURCE_BLOB], by rw [h], by simp,
            by simp⟩
        · exact ⟨[Request.virtgpu_getparam VIRTGPU_PARAM_QUERY_DEV,
            Request.virtgpu_getparam K.VIRTGPU_PARAM_RESOURCE_BLOB,
            Request.virtgpu_getparam VIRTGPU_PARAM_ALLOW_P2P], by rw [h], by simp, by simp⟩
      · exact ⟨[], by rw [hother name hv h1 h2], by simp, by simp⟩

/-- C17 (witness): an `i915` device issues the name query and the chipset-id query. -/
theorem C17_requests_issued_witness :
    (get_gpu_type sample_headers (sample_fd "i915" 0x56A0 (fun _ => 1)) [] ⟨0, 0, false⟩).2 =
      [] ++ [Request.drmGetVersion,
        Request.i915_getparam sample_headers.I915_PARAM_CHIPSET_ID] :=
  (C17_requests_issued sample_headers (sample_fd "i915" 0x56A0 (fun _ => 1)) []
    ⟨0, 0, false⟩).2.2.1 rfl

/-- C18: whenever the lookup succeeds the resulting `graphics_version` is one of
4, 5, 6, 7, 8, 9, 11, 12, 14; it is never 10 or 13. -/
theorem C18_major_versions (d : Nat) (r : intel_gpu_info)
    (h : (intel_gpu_info_from_device_id d r).1 = 0) :
    (intel_gpu_info_from_device_id d r).2.graphics_version ∈
      ([4, 5, 6, 7, 8, 9, 11, 12, 14] : List Int) ∧
    (intel_gpu_info_from_device_id d r).2.graphics_version ≠ 10 ∧
    (intel_gpu_info_from_device_id d r).2.graphics_version ≠ 13 := by
  have hm := lookup_versions d r h
  refine ⟨hm, ?_, ?_⟩
  · intro e
    rw [e] at hm
    exact absurd hm (by decide)
  · intro e
    rw [e] at hm
    exact absurd hm (by decide)

/-- C18 (witness): the mtl literal `0x7D40`, starting from a record that holds
major version 10. -/
theorem C18_major_versions_witness :
    (intel_gpu_info_from_device_id 0x7D40 ⟨10, 0, false⟩).1 = 0 ∧
    (intel_gpu_info_from_device_id 0x7D40 ⟨10, 0, false⟩).2.graphics_version ∈
      ([4, 5, 6, 7, 8, 9, 11, 12, 14] : List Int) :=
  ⟨by decide!, (C18_major_versions 0x7D40 ⟨10, 0, false⟩ (by decide!)).1⟩

/-- C19: for an identifier `d` that is a literal of an id list other than
`gen7_ids`, reported by a successful chipset-id query, `isIntelDg2` returns `true`
exactly when `d` is a literal of `dg2_ids` or one of `0x46D0`, `0x46D1`, `0x46D2`,
which are the literals of `adlp_ids` not listed in `gen12_ids`. Hence `get_gpu_type`
classifies an `i915` device reporting `0x46D0`, `0x46D1` or `0x46D2` as
`GPU_GRP_TYPE_INTEL_DGPU_IDX` and one reporting any other literal of `adlp_ids` as
`GPU_GRP_TYPE_INTEL_IGPU_IDX`. -/
theorem C19_discrete_identifiers (K : Headers) (fd : Transport) (lg : List Request)
    (info : intel_gpu_info) (d : Nat) (l : List Nat)
    (hl : l ∈ id_lists) (hne : l ≠ gen7_ids) (hd : d ∈ l)
    (hq : fd.i915_getparam lg K.I915_PARAM_CHIPSET_ID = (0, some (d : Int))) :
    ((isIntelDg2 K fd lg info).1 = true ↔
      d ∈ dg2_ids ∨ d = 0x46D0 ∨ d = 0x46D1 ∨ d = 0x46D2) ∧
    (∀ x, (x ∈ adlp_ids ∧ x ∉ gen12_ids) ↔ (x = 0x46D0 ∨ x = 0x46D1 ∨ x = 0x46D2)) ∧
    (∀ log : List Request, lg = log ++ [Request.drmGetVersion] →
      fd.drmGetVersion log = some "i915" →
      ((d = 0x46D0 ∨ d = 0x46D1 ∨ d = 0x46D2) →
        (get_gpu_type K fd log info).1 = K.GPU_GRP_TYPE_INTEL_DGPU_IDX) ∧
      (d ∈ adlp_ids → d ≠ 0x46D0 → d ≠ 0x46D1 → d ≠ 0x46D2 →
        (get_gpu_type K fd log info).1 = K.GPU_GRP_TYPE_INTEL_IGPU_IDX)) := by
  have htab : ∀ l ∈ id_lists, l ≠ gen7_ids → ∀ x ∈ l, x ∉ gen7_ids ∧
      (intel_gpu_info_from_device_id x ⟨0, 0, false⟩).1 = 0 ∧
      (GEN_VERSION_X10 (intel_gpu_info_from_device_id x ⟨0, 0, false⟩).2 = 125 ↔
        x ∈ dg2_ids ∨ x = 0x46D0 ∨ x = 0x46D1 ∨ x = 0x46D2) := by decide!
  have hadlp : ∀ x ∈ adlp_ids, x ∉ dg2_ids ∧
      (x ∉ gen12_ids ↔ (x = 0x46D0 ∨ x = 0x46D1 ∨ x = 0x46D2)) := by decide!
  obtain ⟨h7, h0, hiff⟩ := htab l hl hne d hd
  have hlt : d < 65536 := lookup_ok_lt d _ h0
  have heq : intel_gpu_info_from_device_id d info =
      intel_gpu_info_from_device_id d ⟨0, 0, false⟩ :=
    lookup_indep d ⟨0, 0, false⟩ info h0 (lookup_not_gen7 d _ h7 h0)
  have hI : (isIntelDg2 K fd lg info).1 = true ↔
      d ∈ dg2_ids ∨ d = 0x46D0 ∨ d = 0x46D1 ∨ d = 0x46D2 := by
    rw [isIntelDg2_of_query K fd lg info d hlt hq, heq, ← hiff]
    simp
  refine ⟨hI, ?_, ?_⟩
  · intro x
    constructor
    · rintro ⟨hx, hn⟩
      exact ((hadlp x hx).2).1 hn
    · intro hx
      have h3 : ∀ y ∈ [0x46D0, 0x46D1, 0x46D2], y ∈ adlp_ids ∧ y ∉ gen12_ids := by decide!
      exact h3 x (by simpa using hx)
  · intro log hlg hname
    rw [get_gpu_type_i915 K fd log info hname, ← hlg]
    constructor
    · intro hx
      have ht : (isIntelDg2 K fd lg info).1 = true := hI.2 (Or.inr hx)
      simp [ht]
    · intro ha n0 n1 n2
      have hf : ¬ (isIntelDg2 K fd lg info).1 = true := by
        rw [hI]
        rintro (hdg | hx | hx | hx)
        · exact (hadlp d ha).1 hdg
        · exact n0 hx
        · exact n1 hx
        · exact n2 hx
      simp [hf]

/-- C19 (witness): an `i915` device reporting the adlp literal `0x46D0` is
classified as `GPU_GRP_TYPE_INTEL_DGPU_IDX`. -/
theorem C19_discrete_identifiers_witness :
    adlp_ids ∈ id_lists ∧ adlp_ids ≠ gen7_ids ∧ 0x46D0 ∈ adlp_ids ∧
    (get_gpu_type sample_headers (sample_fd "i915" 0x46D0 (fun _ => 0)) []
      ⟨0, 0, false⟩).1 = sample_headers.GPU_GRP_TYPE_INTEL_DGPU_IDX :=
  ⟨by decide!, by decide!, by decide!,
   ((C19_discrete_identifiers sample_headers (sample_fd "i915" 0x46D0 (fun _ => 0))
      [Request.drmGetVersion] ⟨0, 0, false⟩ 0x46D0 adlp_ids (by decide!) (by decide!)
      (by decide!) rfl).2.2 [] rfl rfl).1 (Or.inl rfl)⟩

/-- C20: when the lookup returns `-1` the output record is as it was before the
call: `graphics_version`, `sub_version` and `is_xelpd` keep their values. -/
theorem C20_notfound_writes_nothing (d : Nat) (r : intel_gpu_info)
    (h : (intel_gpu_info_from_device_id d r).1 = -1) :
    (intel_gpu_info_from_device_id d r).2 = r ∧
    (intel_gpu_info_from_device_id d r).2.graphics_version = r.graphics_version ∧
    (intel_gpu_info_from_device_id d r).2.sub_version = r.sub_version ∧
    (intel_gpu_info_from_device_id d r).2.is_xelpd = r.is_xelpd := by
  have hk := lookup_fail_keep d r h
  rw [hk]
  exact ⟨rfl, rfl, rfl, rfl⟩

/-- C20 (witness): identifier `0x0000` with the output record `(12, 5, true)`. -/
theorem C20_notfound_writes_nothing_witness :
    (intel_gpu_info_from_device_id 0x0000 ⟨12, 5, true⟩).1 = -1 ∧
    (intel_gpu_info_from_device_id 0x0000 ⟨12, 5, true⟩).2 = ⟨12, 5, true⟩ :=
  ⟨by decide!, (C20_notfound_writes_nothing 0x0000 ⟨12, 5, true⟩ (by decide!)).1⟩

end IntelDevice
